import Mathlib

/-!
Verification development for the sriovnet switchdev representor-resolution
engine. The repository sources at hand contain the package's tests but not
the file implementing the switchdev operations (port-name grammar parser,
representor resolution, flavour classification, peer-MAC access, DPU
variants); the definitions below are therefore modelled from the
specification's component design, with the package's own tests pinning the
behaviour where the specification leaves a choice open. Filesystem and
netlink accessors are external collaborators in the design, so each
operation takes an explicit environment record whose fields hold the
results the accessors would return (attribute-file contents, directory
candidates, devlink query outcomes).
-/

namespace Sriovnet

/-- Modelled from the spec: devlink port flavour enumeration used by both
the netlink port descriptors and the sysfs flavour classification
(physical/uplink, PCI PF, PCI VF, PCI SF, unknown). -/
inductive PortFlavour where
  | physical
  | pciPF
  | pciVF
  | pciSF
  | unknown
deriving DecidableEq

/-- Modelled from the spec: the tagged descriptor produced by the
phys_port_name grammar parser. Each structured case carries an optional
external-controller number; none means the local/default controller. -/
inductive PortDesc where
  | physical (port : Nat)
  | pf (controller : Option Nat) (pfNum : Nat)
  | vf (controller : Option Nat) (pfNum : Nat) (vfNum : Nat)
  | sf (controller : Option Nat) (pfNum : Nat) (sfNum : Nat)
  | unknown
deriving DecidableEq

/-- Modelled from the spec: the two kernel attribute files of a netdev the
engine reads; none models an absent file. -/
structure NetdevAttrs where
  physPortName : Option String
  physSwitchID : Option String
deriving DecidableEq

/-- Modelled from the spec: the error taxonomy surfaced to callers. -/
inductive SriovErr where
  | deviceLookupFailed
  | uplinkNotFound
  | representorNotFound
  | unsupportedPortFlavour
  | notARepresentor
  | invalidIdentifier
  | ioError
deriving DecidableEq

/-- Strip an expected literal character sequence from the front of a
character list, returning the remainder on success. -/
def dropLit : List Char → List Char → Option (List Char)
  | [], cs => some cs
  | _ :: _, [] => none
  | l :: ls, c :: cs => if c = l then dropLit ls cs else none

/-- Base-10 value of a digit run. -/
def digitsVal (ds : List Char) : Nat :=
  ds.foldl (fun a c => 10 * a + (c.toNat - '0'.toNat)) 0

/-- Consume a maximal nonempty digit run from the front of a character
list (numeric parsing for the grammar); none if no leading digit. -/
def parseNum (cs : List Char) : Option (Nat × List Char) :=
  match cs.takeWhile Char.isDigit with
  | [] => none
  | ds => some (digitsVal ds, cs.dropWhile Char.isDigit)

/-- Modelled from the spec: the part of the phys_port_name grammar after a
pf keyword: pf(N), pf(N)vf(M) or pf(N)sf(M), with the given controller
tag. Malformed or trailing input yields the unknown descriptor. -/
def parsePfTail (controller : Option Nat) (cs : List Char) : PortDesc :=
  match parseNum cs with
  | none => .unknown
  | some (n, rest) =>
    if rest = [] then .pf controller n
    else
      match dropLit ['v', 'f'] rest with
      | some rest2 =>
        (match parseNum rest2 with
         | some (m, []) => .vf controller n m
         | _ => .unknown)
      | none =>
        match dropLit ['s', 'f'] rest with
        | some rest2 =>
          (match parseNum rest2 with
           | some (m, []) => .sf controller n m
           | _ => .unknown)
        | none => .unknown

/-- Modelled from the spec: total phys_port_name grammar parser over the
character list of the name. The controller-prefixed form c(K)pf... is
checked before the unprefixed forms; p(N) is the physical port; anything
else is unknown. -/
def parsePortNameAux (cs : List Char) : PortDesc :=
  match dropLit ['c'] cs with
  | some rest =>
    (match parseNum rest with
     | some (k, rest2) =>
       (match dropLit ['p', 'f'] rest2 with
        | some rest3 => parsePfTail (some k) rest3
        | none => .unknown)
     | none => .unknown)
  | none =>
    match dropLit ['p', 'f'] cs with
    | some rest => parsePfTail none rest
    | none =>
      match dropLit ['p'] cs with
      | some rest =>
        (match parseNum rest with
         | some (n, []) => .physical n
         | _ => .unknown)
      | none => .unknown

/-- Modelled from the spec: the total parser on strings; never fails,
unparseable input yields the unknown descriptor. -/
def parsePortName (s : String) : PortDesc :=
  parsePortNameAux s.data

example : parsePortName "p0" = .physical 0 := by decide
example : parsePortName "pf0" = .pf none 0 := by decide
example : parsePortName "pf0vf2" = .vf none 0 2 := by decide
example : parsePortName "pf0sf44" = .sf none 0 44 := by decide
example : parsePortName "c1pf0vf2" = .vf (some 1) 0 2 := by decide
example : parsePortName "c1pf0sf10" = .sf (some 1) 0 10 := by decide
example : parsePortName "c1pf1" = .pf (some 1) 1 := by decide
example : parsePortName "invalid" = .unknown := by decide
example : parsePortName "" = .unknown := by decide
example : parsePortName "pf0vf" = .unknown := by decide
example : parsePortName "c1pf" = .unknown := by decide
example : parsePortName "p0extra" = .unknown := by decide

/-- Modelled from the spec: the structured devlink port descriptor the
netlink accessor returns (flavour, optional controller number, optional
PF/VF/SF numbers, optional function hardware address, associated netdev
name). -/
structure DevlinkPort where
  netdeviceName : String
  portFlavour : PortFlavour
  controllerNumber : Option Nat
  pfNumber : Option Nat
  vfNumber : Option Nat
  sfNumber : Option Nat
  fnHwAddr : Option String
deriving DecidableEq

/-- Modelled from the spec: the controller number of the uplink's own
devlink port (the port whose netdev name is the uplink), none when the
uplink port is absent or carries no controller number. -/
def uplinkController (ports : List DevlinkPort) (uplink : String) : Option Nat :=
  match ports.find? (fun p => decide (p.netdeviceName = uplink)) with
  | some p => p.controllerNumber
  | none => none

/-- Modelled from the spec: a devlink port matches a VF/SF resolution
request when its flavour is the requested one, its VF (respectively SF)
number is the requested index, and it is PF-local: its controller equals
the uplink's own controller or is absent. -/
def portMatchesLocal (flav : PortFlavour) (idx : Nat) (upCtrl : Option Nat)
    (p : DevlinkPort) : Bool :=
  decide (p.portFlavour = flav) &&
  (match flav with
   | .pciVF => decide (p.vfNumber = some idx)
   | .pciSF => decide (p.sfNumber = some idx)
   | _ => false) &&
  (decide (p.controllerNumber = upCtrl) || decide (p.controllerNumber = none))

/-- Modelled from the spec: select from a devlink port list the netdev
name of the PF-local port with the requested flavour and index. -/
def findLocalPort (ports : List DevlinkPort) (uplink : String)
    (flav : PortFlavour) (idx : Nat) : Option String :=
  match ports.find? (portMatchesLocal flav idx (uplinkController ports uplink)) with
  | some p => some p.netdeviceName
  | none => none

/-- Modelled from the spec: environment of one VF/SF resolution call. The
nlPorts field is the outcome of the netlink get-all-devlink-ports query
for the uplink's PCI bus/device; uplinkExists is whether the uplink's
device symlink resolves in sysfs; uplinkAttrs are the uplink's own
attribute files; siblings are the candidate netdevs enumerated in the
sysfs fallback, each with its attribute files. -/
structure RepEnv where
  nlPorts : Except String (List DevlinkPort)
  uplinkExists : Bool
  uplinkAttrs : NetdevAttrs
  siblings : List (String × NetdevAttrs)

/-- Modelled from the spec: in the sysfs fallback a parsed descriptor
matches a VF (respectively SF) request only in the local, no-controller
form with the requested index; externally controlled descriptors never
match a plain VF/SF resolution. -/
def descMatchesLocal (flav : PortFlavour) (idx : Nat) : PortDesc → Bool
  | .vf none _ i => decide (flav = .pciVF) && decide (i = idx)
  | .sf none _ i => decide (flav = .pciSF) && decide (i = idx)
  | _ => false

/-- Modelled from the spec: a sysfs candidate matches when its switch ID
equals the uplink's switch ID and its phys_port_name parses to a local
descriptor of the requested flavour and index; candidates lacking either
attribute file never match. -/
def sysfsRepMatch (flav : PortFlavour) (idx : Nat) (swid : String)
    (e : String × NetdevAttrs) : Bool :=
  (match e.2.physSwitchID with
   | some s => decide (s = swid)
   | none => false) &&
  (match e.2.physPortName with
   | some pn => descMatchesLocal flav idx (parsePortName pn)
   | none => false)

/-- Modelled from the spec: the sysfs fallback of VF/SF resolution. The
uplink must have a non-empty switch ID; the matching sibling's netdev
name is returned, otherwise the representor-not-found error. -/
def sysfsFallbackRep (flav : PortFlavour) (env : RepEnv) (idx : Nat) :
    Except SriovErr String :=
  match env.uplinkAttrs.physSwitchID with
  | none => .error .notARepresentor
  | some swid =>
    if swid = "" then .error .notARepresentor
    else
      match env.siblings.find? (sysfsRepMatch flav idx swid) with
      | some e => .ok e.1
      | none => .error .representorNotFound

/-- Modelled from the spec: the two-tier VF/SF resolution. The uplink's
device link must resolve; then the netlink port list is tried first and
the sysfs fallback is used when the netlink query failed or reported no
matching local port. A netlink failure is never itself surfaced. -/
def getVfSfRep (flav : PortFlavour) (env : RepEnv) (uplink : String)
    (idx : Nat) : Except SriovErr String :=
  if env.uplinkExists then
    match env.nlPorts with
    | .ok ports =>
      (match findLocalPort ports uplink flav idx with
       | some name => .ok name
       | none => sysfsFallbackRep flav env idx)
    | .error _ => sysfsFallbackRep flav env idx
  else .error .deviceLookupFailed

/-- Modelled from the spec: resolve the VF representor netdev for an
uplink name and VF index. -/
def GetVfRepresentor (env : RepEnv) (uplink : String) (vfIndex : Nat) :
    Except SriovErr String :=
  getVfSfRep .pciVF env uplink vfIndex

/-- Modelled from the spec: resolve the SF representor netdev for an
uplink name and SF index. -/
def GetSfRepresentor (env : RepEnv) (uplink : String) (sfIndex : Nat) :
    Except SriovErr String :=
  getVfSfRep .pciSF env uplink sfIndex

/-- Modelled from the spec: environment of a per-netdev query. The nlPort
field is the outcome of the netlink get-port-by-netdev-name query; attrs
are the netdev's attribute files (a nonexistent netdev has both files
absent). -/
structure FlavourEnv where
  nlPort : Except String DevlinkPort
  attrs : NetdevAttrs

/-- Modelled from the spec: flavour classification of an arbitrary netdev.
The netlink query is tried first; on its failure the sysfs fallback
requires a non-empty switch ID (otherwise the netdev is not a
representor, an error), requires the phys_port_name file to exist
(otherwise a distinct I/O error), and maps the parsed descriptor to a
flavour; an unparseable name is the unknown flavour without error. -/
def GetRepresentorPortFlavour (env : FlavourEnv) : Except SriovErr PortFlavour :=
  match env.nlPort with
  | .ok p => .ok p.portFlavour
  | .error _ =>
    match env.attrs.physSwitchID with
    | none => .error .notARepresentor
    | some swid =>
      if swid = "" then .error .notARepresentor
      else
        match env.attrs.physPortName with
        | none => .error .ioError
        | some pn =>
          match parsePortName pn with
          | .physical _ => .ok .physical
          | .pf _ _ => .ok .pciPF
          | .vf _ _ _ => .ok .pciVF
          | .sf _ _ _ => .ok .pciSF
          | .unknown => .ok .unknown

/-- Modelled from the spec: the numeric VF or SF index encoded in a
representor's phys_port_name, regardless of controller prefix. Physical
and PF representors have no such index (unsupported flavour); a missing
phys_port_name file is an I/O error; an empty switch ID is the
not-a-representor error (both via the flavour classification). -/
def GetPortIndexFromRepresentor (env : FlavourEnv) : Except SriovErr Nat :=
  match GetRepresentorPortFlavour env with
  | .error e => .error e
  | .ok f =>
    if f = .pciVF ∨ f = .pciSF then
      match env.attrs.physPortName with
      | none => .error .ioError
      | some pn =>
        match parsePortName pn with
        | .vf _ _ i => .ok i
        | .sf _ _ i => .ok i
        | _ => .error .unsupportedPortFlavour
    else .error .unsupportedPortFlavour

/-- Split a character list into newline-separated lines. -/
def splitLines : List Char → List (List Char)
  | [] => [[]]
  | c :: cs =>
    if c = '\n' then [] :: splitLines cs
    else
      match splitLines cs with
      | [] => [[c]]
      | l :: ls => (c :: l) :: ls

/-- Drop leading and trailing spaces of a character list. -/
def trimSpaces (cs : List Char) : List Char :=
  ((cs.dropWhile (fun c => c = ' ')).reverse.dropWhile (fun c => c = ' ')).reverse

/-- Modelled from the spec: recognize the MAC field line of the textual
config file (the line starting, after leading spaces, with MAC). -/
def isMacLine (l : List Char) : Bool :=
  match dropLit ['M', 'A', 'C'] (l.dropWhile (fun c => c = ' ')) with
  | some _ => true
  | none => false

/-- Modelled from the spec: parse the MAC field out of the free-text
config file: on the MAC line, the value is everything after the first
colon with insignificant whitespace trimmed. -/
def parseMacFromConfig (content : String) : Option String :=
  match (splitLines content.data).find? isMacLine with
  | none => none
  | some l =>
    match (l.dropWhile (fun c => ¬ c = ':')) with
    | ':' :: rest => some (String.mk (trimSpaces rest))
    | _ => none

/-- Modelled from the spec: environment of a peer-MAC read; pfConfig is
the content of the smart-nic config file of the PF port under the
corresponding uplink, none when that file is absent. -/
structure PeerMacEnv where
  flav : FlavourEnv
  pfConfig : Option String

/-- Modelled from the spec: sysfs fallback of the peer-MAC read for a PF
representor: the phys_port_name must parse as a PF descriptor and the MAC
field is parsed out of the config file. -/
def sysfsGetPfMac (env : PeerMacEnv) : Except SriovErr String :=
  match env.flav.attrs.physPortName with
  | none => .error .ioError
  | some pn =>
    match parsePortName pn with
    | .pf _ _ =>
      (match env.pfConfig with
       | none => .error .ioError
       | some content =>
         match parseMacFromConfig content with
         | some mac => .ok mac
         | none => .error .ioError)
    | _ => .error .unsupportedPortFlavour

/-- Modelled from the spec and the package's tests: read the peer
hardware address of a representor. Valid only for PF-flavoured
representors; the netlink port-function hardware address is preferred,
with the smart-nic config file as fallback. -/
def GetRepresentorPeerMacAddress (env : PeerMacEnv) : Except SriovErr String :=
  match GetRepresentorPortFlavour env.flav with
  | .error e => .error e
  | .ok f =>
    if f = .pciPF then
      match env.flav.nlPort with
      | .ok p =>
        (match p.fnHwAddr with
         | some mac => .ok mac
         | none => sysfsGetPfMac env)
      | .error _ => sysfsGetPfMac env
    else .error .unsupportedPortFlavour

/-- Modelled from the spec and the package's tests
(TestSetRepresentorPeerMacAddress): set the peer hardware address of a
representor through the sysfs smart-nic path. The tests pin this
operation to VF-flavoured representors (external or legacy): the parsed
PF and VF numbers select the mac file written, and every other flavour
fails. The ok value records the write as (pf number, vf number, written
string). -/
def SetRepresentorPeerMacAddress (env : FlavourEnv) (mac : String) :
    Except SriovErr (Nat × Nat × String) :=
  match GetRepresentorPortFlavour env with
  | .error e => .error e
  | .ok f =>
    if f = .pciVF then
      match env.attrs.physPortName with
      | none => .error .ioError
      | some pn =>
        match parsePortName pn with
        | .vf _ p v => .ok (p, v, mac)
        | _ => .error .unsupportedPortFlavour
    else .error .unsupportedPortFlavour

/-- Modelled from the spec: decimal string-to-integer conversion for
controller/PF/VF/SF identifiers; a non-numeric identifier is an error. -/
def parseDecNat (s : String) : Option Nat :=
  match s.data with
  | [] => none
  | cs => if cs.all Char.isDigit then some (digitsVal cs) else none

/-- Modelled from the spec: scan the network-interface tree for the first
representor (non-empty switch ID) whose parsed phys_port_name satisfies
the given criteria; netdevs lacking either attribute file are skipped. -/
def findNetdevWithCriteria (cands : List (String × NetdevAttrs))
    (crit : PortDesc → Bool) : Option String :=
  match cands.find? (fun e =>
      (match e.2.physSwitchID with
       | some s => !(decide (s = ""))
       | none => false) &&
      (match e.2.physPortName with
       | some pn => crit (parsePortName pn)
       | none => false)) with
  | some e => some e.1
  | none => none

/-- Modelled from the spec: resolve a PF representor for a DPU controller:
controller-prefixed PF descriptors with the requested PF index are
matched first; when none exist the legacy unprefixed pf(N) form is
matched; a non-numeric PF identifier is an error. -/
def GetPfRepresentorDPU (cands : List (String × NetdevAttrs)) (pfID : String) :
    Except SriovErr String :=
  match parseDecNat pfID with
  | none => .error .invalidIdentifier
  | some n =>
    match findNetdevWithCriteria cands (fun d =>
        match d with
        | .pf (some _) m => decide (m = n)
        | _ => false) with
    | some name => .ok name
    | none =>
      match findNetdevWithCriteria cands (fun d =>
          match d with
          | .pf none m => decide (m = n)
          | _ => false) with
      | some name => .ok name
      | none => .error .representorNotFound

/-- Modelled from the spec: resolve a VF representor for a DPU controller
id and VF index: controller-prefixed VF descriptors first, legacy
unprefixed pf(N)vf(M) as fallback; non-numeric identifiers error. -/
def GetVfRepresentorDPU (cands : List (String × NetdevAttrs))
    (pfID vfIndex : String) : Except SriovErr String :=
  match parseDecNat pfID, parseDecNat vfIndex with
  | some n, some m =>
    (match findNetdevWithCriteria cands (fun d =>
        match d with
        | .vf (some _) p v => decide (p = n) && decide (v = m)
        | _ => false) with
    | some name => .ok name
    | none =>
      match findNetdevWithCriteria cands (fun d =>
          match d with
          | .vf none p v => decide (p = n) && decide (v = m)
          | _ => false) with
      | some name => .ok name
      | none => .error .representorNotFound)
  | _, _ => .error .invalidIdentifier

/-- Modelled from the spec and the package's tests
(TestGetSfRepresentorDPU): resolve an SF representor for a DPU controller
id and SF index. The tests pin this variant to controller-prefixed SF
descriptors only: unlike the PF and VF variants it has no legacy
unprefixed fallback. -/
def GetSfRepresentorDPU (cands : List (String × NetdevAttrs))
    (pfID sfIndex : String) : Except SriovErr String :=
  match parseDecNat pfID, parseDecNat sfIndex with
  | some n, some m =>
    (match findNetdevWithCriteria cands (fun d =>
        match d with
        | .sf (some _) p q => decide (p = n) && decide (q = m)
        | _ => false) with
    | some name => .ok name
    | none => .error .representorNotFound)
  | _, _ => .error .invalidIdentifier

/-- Modelled from the spec: environment of an uplink resolution call.
devExists is whether the requested PCI address exists in the PCI device
tree (resolving a VF address through its physfn link); candidates are
the netdevs of the resolved device's net directory with their attribute
files. -/
structure UplinkEnv where
  devExists : Bool
  candidates : List (String × NetdevAttrs)

/-- Modelled from the spec: an uplink candidate is accepted when it is
switchdev-capable (non-empty switch ID) and its phys_port_name file is
absent (legacy) or parses as a physical port. -/
def isUplinkCandidate (e : String × NetdevAttrs) : Bool :=
  (match e.2.physSwitchID with
   | some s => !(decide (s = ""))
   | none => false) &&
  (match e.2.physPortName with
   | none => true
   | some pn =>
     match parsePortName pn with
     | .physical _ => true
     | _ => false)

/-- Modelled from the spec: resolve the uplink representor of a PCI
address: the device-lookup error when the address is absent from the
device tree, the name of the accepted candidate when one exists, and the
uplink-not-found error otherwise. -/
def GetUplinkRepresentor (env : UplinkEnv) : Except SriovErr String :=
  if env.devExists then
    match env.candidates.find? isUplinkCandidate with
    | some e => .ok e.1
    | none => .error .uplinkNotFound
  else .error .deviceLookupFailed

section ModelValidation

/-! Checks of the model against the vectors of the package's tests. -/

example :
    GetVfRepresentor
      ⟨.error "failed to get devlink ports", true, ⟨some "p0", some "c2cfc60003a1420c"⟩,
        [("eth0", ⟨some "pf0vf0", some "c2cfc60003a1420c"⟩),
         ("eth1", ⟨some "pf0vf1", some "c2cfc60003a1420c"⟩),
         ("eth2", ⟨some "pf0vf2", some "c2cfc60003a1420c"⟩)]⟩
      "p0" 2 = .ok "eth2" := rfl

example :
    GetVfRepresentor
      ⟨.error "e", true, ⟨some "p0", some "c2cfc60003a1420c"⟩,
        [("eth0", ⟨some "pf0vf0", some "c2cfc60003a1420c"⟩)]⟩
      "p0" 5 = .error .representorNotFound := rfl

example :
    GetVfRepresentor ⟨.error "e", true, ⟨some "p0", some "c2cfc60003a1420c"⟩, []⟩
      "p0" 0 = .error .representorNotFound := rfl

example :
    GetVfRepresentor
      ⟨.error "e", true, ⟨some "p0", some "c2cfc60003a1420c"⟩,
        [("eth0", ⟨some "invalid", some "c2cfc60003a1420c"⟩),
         ("eth1", ⟨some "pf0sf1", some "c2cfc60003a1420c"⟩)]⟩
      "p0" 0 = .error .representorNotFound := rfl

example :
    GetVfRepresentor
      ⟨.error "e", true, ⟨some "p0", some "c2cfc60003a1420c"⟩,
        [("eth0", ⟨none, some "c2cfc60003a1420c"⟩),
         ("eth1", ⟨some "pf0vf1", some "c2cfc60003a1420c"⟩)]⟩
      "p0" 0 = .error .representorNotFound := rfl

example :
    GetVfRepresentor ⟨.error "e", true, ⟨none, none⟩, []⟩ "eth0" 0
      = .error .notARepresentor := rfl

example :
    GetVfRepresentor
      ⟨.error "e", true, ⟨some "p0", some "c2cfc60003a1420c"⟩,
        [("eth0", ⟨some "invalid", some "c2cfc60003a1420c"⟩),
         ("eth1", ⟨some "pf0vf0", some "c2cfc60003a1420c"⟩),
         ("eth2", ⟨some "pf0sf1", some "c2cfc60003a1420c"⟩),
         ("eth3", ⟨some "pf0vf2", some "c2cfc60003a1420c"⟩)]⟩
      "p0" 2 = .ok "eth3" := rfl

example :
    GetVfRepresentor
      ⟨.error "e", true, ⟨some "p0", some "c2cfc60003a1420c"⟩,
        [("eth2", ⟨some "c1pf0vf1", some "c2cfc60003a1420c"⟩),
         ("eth3", ⟨some "c1pf0vf2", some "c2cfc60003a1420c"⟩),
         ("eth4", ⟨some "pf0vf1", some "c2cfc60003a1420c"⟩),
         ("eth5", ⟨some "pf0vf2", some "c2cfc60003a1420c"⟩)]⟩
      "p0" 2 = .ok "eth5" := rfl

example :
    GetVfRepresentor
      ⟨.error "e", true, ⟨some "p0", some "c2cfc60003a1420c"⟩,
        [("eth2", ⟨some "c1pf0vf1", some "c2cfc60003a1420c"⟩),
         ("eth3", ⟨some "c1pf0vf2", some "c2cfc60003a1420c"⟩)]⟩
      "p0" 2 = .error .representorNotFound := rfl

example :
    GetVfRepresentor
      ⟨.ok [⟨"p0", .physical, some 0, none, none, none, none⟩,
            ⟨"pf0vf0", .pciVF, some 0, none, some 0, none, none⟩,
            ⟨"c1pf0vf1", .pciVF, some 1, none, some 1, none, none⟩,
            ⟨"pf0vf1", .pciVF, some 0, none, some 1, none, none⟩],
        true, ⟨some "p0", some "111111"⟩, []⟩
      "p0" 1 = .ok "pf0vf1" := rfl

example :
    GetVfRepresentor ⟨.error "e", false, ⟨none, none⟩, []⟩ "nonexistent" 0
      = .error .deviceLookupFailed := rfl

example :
    GetSfRepresentor
      ⟨.error "e", true, ⟨some "p0", some "c2cfc60003a1420c"⟩,
        [("eth0", ⟨some "pf0sf0", some "c2cfc60003a1420c"⟩),
         ("eth1", ⟨some "pf0sf1", some "c2cfc60003a1420c"⟩),
         ("eth2", ⟨some "c1pf0sf2", some "c2cfc60003a1420c"⟩),
         ("eth3", ⟨some "pf0sf2", some "c2cfc60003a1420c"⟩)]⟩
      "p0" 2 = .ok "eth3" := rfl

example :
    GetSfRepresentor
      ⟨.error "e", true, ⟨some "p0", some "c2cfc60003a1420c"⟩,
        [("eth0", ⟨some "c1pf0sf0", some "c2cfc60003a1420c"⟩),
         ("eth1", ⟨some "c1pf0sf1", some "c2cfc60003a1420c"⟩),
         ("eth2", ⟨some "c1pf0sf2", some "c2cfc60003a1420c"⟩)]⟩
      "p0" 2 = .error .representorNotFound := rfl

example :
    GetSfRepresentor
      ⟨.ok [⟨"p0", .physical, some 0, none, none, none, none⟩,
            ⟨"c1pf0sf10", .pciSF, some 1, none, none, some 10, none⟩,
            ⟨"pf0vf10", .pciVF, some 0, none, some 10, none, none⟩,
            ⟨"pf0sf10", .pciSF, some 0, none, none, some 10, none⟩],
        true, ⟨some "p0", some "c2cfc60003a1420c"⟩, []⟩
      "p0" 10 = .ok "pf0sf10" := rfl

example :
    GetRepresentorPortFlavour ⟨.error "e", ⟨some "p0", some "c2cfc60003a1420c"⟩⟩
      = .ok .physical := rfl
example :
    GetRepresentorPortFlavour ⟨.error "e", ⟨some "pf0", some "c2cfc60003a1420c"⟩⟩
      = .ok .pciPF := rfl
example :
    GetRepresentorPortFlavour ⟨.error "e", ⟨some "c1pf0vf0", some "c2cfc60003a1420c"⟩⟩
      = .ok .pciVF := rfl
example :
    GetRepresentorPortFlavour ⟨.error "e", ⟨some "c1pf0sf0", some "c2cfc60003a1420c"⟩⟩
      = .ok .pciSF := rfl
example :
    GetRepresentorPortFlavour ⟨.error "e", ⟨some "pf0vf0", none⟩⟩
      = .error .notARepresentor := rfl
example :
    GetRepresentorPortFlavour ⟨.error "e", ⟨none, some "c2cfc60003a1420c"⟩⟩
      = .error .ioError := rfl
example :
    GetRepresentorPortFlavour ⟨.error "e", ⟨some "invalid", some "c2cfc60003a1420c"⟩⟩
      = .ok .unknown := rfl
example :
    GetRepresentorPortFlavour ⟨.ok ⟨"enp3s0f0_0", .pciVF, none, none, none, none, none⟩,
      ⟨some "pf0vf0", some "c2cfc60003a1420c"⟩⟩ = .ok .pciVF := rfl

example :
    GetPortIndexFromRepresentor ⟨.error "e", ⟨some "pf0vf5", some "c2cfc60003a1420c"⟩⟩
      = .ok 5 := rfl
example :
    GetPortIndexFromRepresentor ⟨.error "e", ⟨some "c1pf0sf5", some "c2cfc60003a1420c"⟩⟩
      = .ok 5 := rfl
example :
    GetPortIndexFromRepresentor ⟨.error "e", ⟨some "pf0", some "c2cfc60003a1420c"⟩⟩
      = .error .unsupportedPortFlavour := rfl
example :
    GetPortIndexFromRepresentor ⟨.error "e", ⟨some "p0", some "c2cfc60003a1420c"⟩⟩
      = .error .unsupportedPortFlavour := rfl
example :
    GetPortIndexFromRepresentor ⟨.error "e", ⟨none, some "c2cfc60003a1420c"⟩⟩
      = .error .ioError := rfl
example :
    GetPortIndexFromRepresentor ⟨.error "e", ⟨some "p0", some ""⟩⟩
      = .error .notARepresentor := rfl

example :
    parseMacFromConfig "\nMAC        : 0c:42:a1:de:cf:7c\nMaxTxRate  : 0\nState      : Follow\n"
      = some "0c:42:a1:de:cf:7c" := rfl

example :
    GetRepresentorPeerMacAddress
      ⟨⟨.error "e", ⟨some "pf0", some "c2cfc60003a1420c"⟩⟩,
        some "\nMAC        : 0c:42:a1:de:cf:7c\nMaxTxRate  : 0\nState      : Follow\n"⟩
      = .ok "0c:42:a1:de:cf:7c" := rfl
example :
    GetRepresentorPeerMacAddress
      ⟨⟨.error "e", ⟨some "pf0vf5", some "c2cfc60003a1420c"⟩⟩, some "MAC : aa"⟩
      = .error .unsupportedPortFlavour := rfl
example :
    GetRepresentorPeerMacAddress
      ⟨⟨.error "e", ⟨some "p0", some "c2cfc60003a1420c"⟩⟩, some "MAC : aa"⟩
      = .error .unsupportedPortFlavour := rfl
example :
    GetRepresentorPeerMacAddress ⟨⟨.error "e", ⟨none, none⟩⟩, some "MAC : aa"⟩
      = .error .notARepresentor := rfl
example :
    GetRepresentorPeerMacAddress
      ⟨⟨.ok ⟨"pf0hpf", .pciPF, none, none, none, none, some "0c:42:a1:de:cf:7c"⟩,
          ⟨some "pf0", some "c2cfc60003a1420c"⟩⟩, none⟩
      = .ok "0c:42:a1:de:cf:7c" := rfl

example :
    SetRepresentorPeerMacAddress
      ⟨.error "no devlink support", ⟨some "c1pf0vf24", some "c2cfc60003a1420c"⟩⟩
      "00:00:00:01:02:03" = .ok (0, 24, "00:00:00:01:02:03") := rfl
example :
    SetRepresentorPeerMacAddress
      ⟨.error "no devlink support", ⟨some "pf0vf24", some "c2cfc60003a1420c"⟩⟩
      "00:00:00:01:02:03" = .ok (0, 24, "00:00:00:01:02:03") := rfl
example :
    SetRepresentorPeerMacAddress
      ⟨.error "no devlink support", ⟨some "pf0", some "c2cfc60003a1420c"⟩⟩
      "00:00:00:01:02:03" = .error .unsupportedPortFlavour := rfl
example :
    SetRepresentorPeerMacAddress ⟨.error "no devlink support", ⟨none, none⟩⟩
      "00:00:00:01:02:03" = .error .notARepresentor := rfl

example :
    GetVfRepresentorDPU
      [("eth0", ⟨some "c1pf0vf0", some "c2cfc60003a1420c"⟩),
       ("eth1", ⟨some "c1pf0vf1", some "c2cfc60003a1420c"⟩),
       ("eth2", ⟨some "c1pf0vf2", some "c2cfc60003a1420c"⟩)]
      "0" "2" = .ok "eth2" := rfl
example :
    GetVfRepresentorDPU
      [("eth0", ⟨some "c1pf0vf0", some "c2cfc60003a1420c"⟩),
       ("eth1", ⟨some "pf0vf0", some "c2cfc60003a1420c"⟩),
       ("eth2", ⟨some "pf0vf2", some "c2cfc60003a1420c"⟩),
       ("eth3", ⟨some "c1pf0vf2", some "c2cfc60003a1420c"⟩)]
      "0" "2" = .ok "eth3" := rfl
example :
    GetVfRepresentorDPU
      [("eth0", ⟨some "pf0vf0", some "c2cfc60003a1420c"⟩),
       ("eth1", ⟨some "pf0vf1", some "c2cfc60003a1420c"⟩),
       ("eth2", ⟨some "pf0vf2", some "c2cfc60003a1420c"⟩)]
      "0" "2" = .ok "eth2" := rfl
example :
    GetVfRepresentorDPU [] "bla" "5" = .error .invalidIdentifier := rfl
example :
    GetVfRepresentorDPU [] "0" "bla" = .error .invalidIdentifier := rfl

example :
    GetPfRepresentorDPU
      [("p0", ⟨some "p0", some "c2cfc60003a1420c"⟩),
       ("p1", ⟨some "p1", some "c2cfc60003a1420c"⟩),
       ("eth0", ⟨some "c1pf0", some "c2cfc60003a1420c"⟩),
       ("eth1", ⟨some "c1pf1", some "c2cfc60003a1420c"⟩)]
      "0" = .ok "eth0" := rfl
example :
    GetPfRepresentorDPU
      [("eth0", ⟨some "pf0", some "c2cfc60003a1420c"⟩),
       ("eth1", ⟨some "pf1", some "c2cfc60003a1420c"⟩)]
      "1" = .ok "eth1" := rfl
example :
    GetPfRepresentorDPU [("eth0", ⟨some "c1pf0", some "c2cfc60003a1420c"⟩)]
      "1" = .error .representorNotFound := rfl
example :
    GetPfRepresentorDPU [] "bla" = .error .invalidIdentifier := rfl

example :
    GetSfRepresentorDPU
      [("eth0", ⟨some "c1pf0sf1", some "c2cfc60003a1420c"⟩),
       ("eth1", ⟨some "c1pf0sf2", some "c2cfc60003a1420c"⟩),
       ("eth2", ⟨some "c1pf0sf3", some "c2cfc60003a1420c"⟩)]
      "0" "2" = .ok "eth1" := rfl
example :
    GetSfRepresentorDPU
      [("eth0", ⟨some "c1pf0sf0", some "c2cfc60003a1420c"⟩),
       ("eth1", ⟨some "pf0sf0", some "c2cfc60003a1420c"⟩),
       ("eth2", ⟨some "pf0sf2", some "c2cfc60003a1420c"⟩),
       ("eth3", ⟨some "c1pf0sf2", some "c2cfc60003a1420c"⟩)]
      "0" "2" = .ok "eth3" := rfl

example :
    GetUplinkRepresentor
      ⟨true, [("enp_0", ⟨some "pf0vf0", some "111111"⟩),
              ("enp_1", ⟨some "pf0vf1", some "111111"⟩),
              ("eth0", ⟨some "p0", some "111111"⟩)]⟩ = .ok "eth0" := rfl
example :
    GetUplinkRepresentor
      ⟨true, [("enp_0", ⟨some "pf0vf0", some "111111"⟩),
              ("eth0", ⟨some "p0", some ""⟩)]⟩ = .error .uplinkNotFound := rfl
example :
    GetUplinkRepresentor ⟨false, []⟩ = .error .deviceLookupFailed := rfl
example :
    GetUplinkRepresentor ⟨true, [("eth0", ⟨none, some "111111"⟩)]⟩
      = .ok "eth0" := rfl
example :
    GetUplinkRepresentor
      ⟨true, [("eth0", ⟨some "invalid", some "111111"⟩),
              ("enp_0", ⟨some "pf0vf0", some "0123"⟩),
              ("enp_1", ⟨some "pf0vf1", some "0124"⟩)]⟩
      = .error .uplinkNotFound := rfl

end ModelValidation

section HelperLemmas

theorem dropLit_append (lit rest : List Char) : dropLit lit (lit ++ rest) = some rest := by
  induction lit with
  | nil => rfl
  | cons l ls ih => simp [dropLit, ih]

theorem takeWhile_digits_append (ds rest : List Char)
    (h1 : ∀ c ∈ ds, c.isDigit = true)
    (h2 : ∀ r, rest.head? = some r → r.isDigit = false) :
    (ds ++ rest).takeWhile Char.isDigit = ds := by
  induction ds with
  | nil =>
    cases rest with
    | nil => rfl
    | cons r t =>
      have := h2 r rfl
      simp [List.takeWhile_cons, this]
  | cons d ds ih =>
    have hd : d.isDigit = true := h1 d (by simp)
    simp only [List.cons_append, List.takeWhile_cons, hd, if_true]
    rw [ih (fun c hc => h1 c (by simp [hc]))]

theorem dropWhile_digits_append (ds rest : List Char)
    (h1 : ∀ c ∈ ds, c.isDigit = true)
    (h2 : ∀ r, rest.head? = some r → r.isDigit = false) :
    (ds ++ rest).dropWhile Char.isDigit = rest := by
  induction ds with
  | nil =>
    cases rest with
    | nil => rfl
    | cons r t =>
      have := h2 r rfl
      simp [List.dropWhile_cons, this]
  | cons d ds ih =>
    have hd : d.isDigit = true := h1 d (by simp)
    simp only [List.cons_append, List.dropWhile_cons, hd, if_true]
    exact ih (fun c hc => h1 c (by simp [hc]))

theorem parseNum_digits_append (ds rest : List Char) (hne : ds ≠ [])
    (h1 : ∀ c ∈ ds, c.isDigit = true)
    (h2 : ∀ r, rest.head? = some r → r.isDigit = false) :
    parseNum (ds ++ rest) = some (digitsVal ds, rest) := by
  unfold parseNum
  rw [takeWhile_digits_append ds rest h1 h2, dropWhile_digits_append ds rest h1 h2]
  cases ds with
  | nil => exact absurd rfl hne
  | cons d t => rfl

theorem parseNum_none (cs : List Char)
    (h : ∀ r, cs.head? = some r → r.isDigit = false) :
    parseNum cs = none := by
  cases cs with
  | nil => rfl
  | cons c t =>
    have := h c rfl
    unfold parseNum
    simp [List.takeWhile_cons, this]

theorem find_eq_of_unique {α : Type} (p : α → Bool) (l : List α) (a : α)
    (hmem : a ∈ l) (hpa : p a = true)
    (huniq : ∀ b ∈ l, p b = true → b = a) :
    l.find? p = some a := by
  induction l with
  | nil => cases hmem
  | cons x xs ih =>
    by_cases hx : p x = true
    · have hxa : x = a := huniq x (by simp) hx
      subst hxa
      simp [List.find?_cons, hx]
    · have hxa : ¬ x = a := by
        intro h
        exact hx (h ▸ hpa)
      have hmem2 : a ∈ xs := by
        rcases List.mem_cons.mp hmem with h | h
        · exact absurd h.symm hxa
        · exact h
      have hx2 : p x = false := by
        cases h : p x
        · rfl
        · exact absurd h hx
      rw [List.find?_cons_of_neg _ (by simp [hx2])]
      exact ih hmem2 (fun b hb hpb => huniq b (by simp [hb]) hpb)

end HelperLemmas

section ParserLemmas

theorem parsePfTail_vf (ctrl : Option Nat) (ns ms : List Char)
    (hn1 : ns ≠ []) (hn2 : ∀ c ∈ ns, c.isDigit = true)
    (hm1 : ms ≠ []) (hm2 : ∀ c ∈ ms, c.isDigit = true) :
    parsePfTail ctrl (ns ++ 'v' :: 'f' :: ms) = .vf ctrl (digitsVal ns) (digitsVal ms) := by
  unfold parsePfTail
  rw [parseNum_digits_append ns ('v' :: 'f' :: ms) hn1 hn2
    (fun r hr => by simp at hr; subst hr; decide)]
  have hvf : dropLit ['v', 'f'] ('v' :: 'f' :: ms) = some ms := dropLit_append ['v', 'f'] ms
  have hms : parseNum (ms ++ []) = some (digitsVal ms, []) :=
    parseNum_digits_append ms [] hm1 hm2 (fun r hr => by simp at hr)
  rw [List.append_nil] at hms
  simp [hvf, hms]

theorem parsePfTail_sf (ctrl : Option Nat) (ns ms : List Char)
    (hn1 : ns ≠ []) (hn2 : ∀ c ∈ ns, c.isDigit = true)
    (hm1 : ms ≠ []) (hm2 : ∀ c ∈ ms, c.isDigit = true) :
    parsePfTail ctrl (ns ++ 's' :: 'f' :: ms) = .sf ctrl (digitsVal ns) (digitsVal ms) := by
  unfold parsePfTail
  rw [parseNum_digits_append ns ('s' :: 'f' :: ms) hn1 hn2
    (fun r hr => by simp at hr; subst hr; decide)]
  have hsf : dropLit ['s', 'f'] ('s' :: 'f' :: ms) = some ms := dropLit_append ['s', 'f'] ms
  have hvf : dropLit ['v', 'f'] ('s' :: 'f' :: ms) = none := by
    simp [dropLit]
  have hms : parseNum (ms ++ []) = some (digitsVal ms, []) :=
    parseNum_digits_append ms [] hm1 hm2 (fun r hr => by simp at hr)
  rw [List.append_nil] at hms
  simp [hvf, hsf, hms]

theorem parsePfTail_pf (ctrl : Option Nat) (ns : List Char)
    (hn1 : ns ≠ []) (hn2 : ∀ c ∈ ns, c.isDigit = true) :
    parsePfTail ctrl ns = .pf ctrl (digitsVal ns) := by
  unfold parsePfTail
  have hns : parseNum (ns ++ []) = some (digitsVal ns, []) :=
    parseNum_digits_append ns [] hn1 hn2 (fun r hr => by simp at hr)
  rw [List.append_nil] at hns
  simp [hns]

theorem parsePfTail_noDigit (ctrl : Option Nat) (cs : List Char)
    (h : parseNum cs = none) : parsePfTail ctrl cs = .unknown := by
  unfold parsePfTail
  simp [h]

theorem parsePortNameAux_cpf (ks rest : List Char)
    (hk1 : ks ≠ []) (hk2 : ∀ c ∈ ks, c.isDigit = true) :
    parsePortNameAux ('c' :: (ks ++ 'p' :: 'f' :: rest))
      = parsePfTail (some (digitsVal ks)) rest := by
  unfold parsePortNameAux
  have hc : dropLit ['c'] ('c' :: (ks ++ 'p' :: 'f' :: rest))
      = some (ks ++ 'p' :: 'f' :: rest) := by simp [dropLit]
  have hks : parseNum (ks ++ 'p' :: 'f' :: rest) = some (digitsVal ks, 'p' :: 'f' :: rest) :=
    parseNum_digits_append ks ('p' :: 'f' :: rest) hk1 hk2
      (fun r hr => by simp at hr; subst hr; decide)
  have hpf : dropLit ['p', 'f'] ('p' :: 'f' :: rest) = some rest := dropLit_append ['p', 'f'] rest
  simp [hc, hks, hpf]

theorem parsePortNameAux_pf (rest : List Char) :
    parsePortNameAux ('p' :: 'f' :: rest) = parsePfTail none rest := by
  unfold parsePortNameAux
  have hc : dropLit ['c'] ('p' :: 'f' :: rest) = none := by simp [dropLit]
  have hpf : dropLit ['p', 'f'] ('p' :: 'f' :: rest) = some rest :=
    dropLit_append ['p', 'f'] rest
  simp [hc, hpf]

theorem parsePfTail_ctrl_cases (ctrl : Option Nat) (cs : List Char) :
    parsePfTail ctrl cs = .unknown
    ∨ (∃ n, parsePfTail ctrl cs = .pf ctrl n)
    ∨ (∃ n m, parsePfTail ctrl cs = .vf ctrl n m)
    ∨ (∃ n m, parsePfTail ctrl cs = .sf ctrl n m) := by
  unfold parsePfTail
  rcases h : parseNum cs with _ | ⟨n, rest⟩
  · exact Or.inl rfl
  · by_cases hr : rest = []
    · subst hr
      simp
    · simp only [if_neg hr]
      rcases hvf : dropLit ['v', 'f'] rest with _ | rest2
      · rcases hsf : dropLit ['s', 'f'] rest with _ | rest2
        · simp
        · simp only []
          rcases hm : parseNum rest2 with _ | ⟨m, r⟩
          · simp
          · cases r with
            | nil => simp
            | cons a t => simp
      · simp only []
        rcases hm : parseNum rest2 with _ | ⟨m, r⟩
        · simp
        · cases r with
          | nil => simp
          | cons a t => simp

theorem parsePortNameAux_c_cases (cs : List Char) :
    parsePortNameAux ('c' :: cs) = .unknown
    ∨ (∃ k n, parsePortNameAux ('c' :: cs) = .pf (some k) n)
    ∨ (∃ k n m, parsePortNameAux ('c' :: cs) = .vf (some k) n m)
    ∨ (∃ k n m, parsePortNameAux ('c' :: cs) = .sf (some k) n m) := by
  have hc : dropLit ['c'] ('c' :: cs) = some cs := by simp [dropLit]
  rcases hn : parseNum cs with _ | ⟨k, rest2⟩
  · exact Or.inl (by simp [parsePortNameAux, hc, hn])
  · rcases hpf : dropLit ['p', 'f'] rest2 with _ | rest3
    · exact Or.inl (by simp [parsePortNameAux, hc, hn, hpf])
    · have hred : parsePortNameAux ('c' :: cs) = parsePfTail (some k) rest3 := by
        simp [parsePortNameAux, hc, hn, hpf]
      rw [hred]
      rcases parsePfTail_ctrl_cases (some k) rest3 with h | ⟨n, h⟩ | ⟨n, m, h⟩ | ⟨n, m, h⟩
      · exact Or.inl h
      · exact Or.inr (Or.inl ⟨k, n, h⟩)
      · exact Or.inr (Or.inr (Or.inl ⟨k, n, m, h⟩))
      · exact Or.inr (Or.inr (Or.inr ⟨k, n, m, h⟩))

theorem parsePortNameAux_noDigit (cs : List Char)
    (h : ∀ c ∈ cs, c.isDigit = false) : parsePortNameAux cs = .unknown := by
  cases cs with
  | nil => rfl
  | cons c rest =>
    have hrest : ∀ r, rest.head? = some r → r.isDigit = false := by
      intro r hr
      cases rest with
      | nil => simp at hr
      | cons x t =>
        simp only [List.head?_cons, Option.some.injEq] at hr
        exact hr ▸ h x (by simp)
    by_cases hcc : c = 'c'
    · subst hcc
      have hc : dropLit ['c'] ('c' :: rest) = some rest := by simp [dropLit]
      have hn : parseNum rest = none := parseNum_none rest hrest
      simp [parsePortNameAux, hc, hn]
    · have hc : dropLit ['c'] (c :: rest) = none := by simp [dropLit, hcc]
      by_cases hcp : c = 'p'
      · subst hcp
        cases rest with
        | nil => decide
        | cons x t =>
          by_cases hxf : x = 'f'
          · subst hxf
            have ht : ∀ r, t.head? = some r → r.isDigit = false := by
              intro r hr
              cases t with
              | nil => simp at hr
              | cons y u =>
                simp only [List.head?_cons, Option.some.injEq] at hr
                exact hr ▸ h y (by simp)
            rw [parsePortNameAux_pf]
            exact parsePfTail_noDigit none t (parseNum_none t ht)
          · have hpf : dropLit ['p', 'f'] ('p' :: x :: t) = none := by
              simp [dropLit, hxf]
            have hp : dropLit ['p'] ('p' :: x :: t) = some (x :: t) := by
              simp [dropLit]
            have hn : parseNum (x :: t) = none := parseNum_none (x :: t) hrest
            simp [parsePortNameAux, hc, hpf, hp, hn]
      · have hpf : dropLit ['p', 'f'] (c :: rest) = none := by simp [dropLit, hcp]
        have hp : dropLit ['p'] (c :: rest) = none := by simp [dropLit, hcp]
        simp [parsePortNameAux, hc, hpf, hp]

end ParserLemmas

section PredicateLemmas

theorem descMatchesLocal_vf_iff (idx : Nat) (d : PortDesc) :
    descMatchesLocal .pciVF idx d = true ↔ ∃ p, d = .vf none p idx := by
  rcases d with port | ⟨ctrl, p⟩ | ⟨ctrl, p, i⟩ | ⟨ctrl, p, i⟩ | _
  · simp [descMatchesLocal]
  · cases ctrl <;> simp [descMatchesLocal]
  · cases ctrl with
    | none =>
      simp only [descMatchesLocal, Bool.and_eq_true, decide_eq_true_eq]
      constructor
      · rintro ⟨-, h⟩
        exact ⟨p, by rw [h]⟩
      · rintro ⟨q, h⟩
        injection h with h1 h2 h3
        exact ⟨trivial, h3⟩
    | some k => simp [descMatchesLocal]
  · cases ctrl <;> simp [descMatchesLocal]
  · simp [descMatchesLocal]

theorem descMatchesLocal_sf_iff (idx : Nat) (d : PortDesc) :
    descMatchesLocal .pciSF idx d = true ↔ ∃ p, d = .sf none p idx := by
  rcases d with port | ⟨ctrl, p⟩ | ⟨ctrl, p, i⟩ | ⟨ctrl, p, i⟩ | _
  · simp [descMatchesLocal]
  · cases ctrl <;> simp [descMatchesLocal]
  · cases ctrl <;> simp [descMatchesLocal]
  · cases ctrl with
    | none =>
      simp only [descMatchesLocal, Bool.and_eq_true, decide_eq_true_eq]
      constructor
      · rintro ⟨-, h⟩
        exact ⟨p, by rw [h]⟩
      · rintro ⟨q, h⟩
        injection h with h1 h2 h3
        exact ⟨trivial, h3⟩
    | some k => simp [descMatchesLocal]
  · simp [descMatchesLocal]

theorem sysfsRepMatch_vf_iff (idx : Nat) (swid : String) (n : String)
    (a : NetdevAttrs) :
    sysfsRepMatch .pciVF idx swid (n, a) = true ↔
      (a.physSwitchID = some swid ∧
       ∃ pn p, a.physPortName = some pn ∧ parsePortName pn = .vf none p idx) := by
  unfold sysfsRepMatch
  rcases a with ⟨ppn, psw⟩
  rcases psw with _ | s
  · simp
  · rcases ppn with _ | pn
    · simp
    · simp only [Bool.and_eq_true, decide_eq_true_eq, Option.some.injEq]
      rw [descMatchesLocal_vf_iff]
      constructor
      · rintro ⟨h1, p, h2⟩
        exact ⟨h1, pn, p, rfl, h2⟩
      · rintro ⟨h1, pn2, p, h2, h3⟩
        subst h2
        exact ⟨h1, p, h3⟩

theorem sysfsRepMatch_sf_iff (idx : Nat) (swid : String) (n : String)
    (a : NetdevAttrs) :
    sysfsRepMatch .pciSF idx swid (n, a) = true ↔
      (a.physSwitchID = some swid ∧
       ∃ pn p, a.physPortName = some pn ∧ parsePortName pn = .sf none p idx) := by
  unfold sysfsRepMatch
  rcases a with ⟨ppn, psw⟩
  rcases psw with _ | s
  · simp
  · rcases ppn with _ | pn
    · simp
    · simp only [Bool.and_eq_true, decide_eq_true_eq, Option.some.injEq]
      rw [descMatchesLocal_sf_iff]
      constructor
      · rintro ⟨h1, p, h2⟩
        exact ⟨h1, pn, p, rfl, h2⟩
      · rintro ⟨h1, pn2, p, h2, h3⟩
        subst h2
        exact ⟨h1, p, h3⟩

theorem sysfsRepMatch_swid (flav : PortFlavour) (idx : Nat) (swid : String)
    (e : String × NetdevAttrs) (h : sysfsRepMatch flav idx swid e = true) :
    e.2.physSwitchID = some swid := by
  unfold sysfsRepMatch at h
  rcases he : e.2.physSwitchID with _ | s
  · rw [he] at h
    simp at h
  · rw [he] at h
    simp only [Bool.and_eq_true, decide_eq_true_eq] at h
    rw [h.1]

theorem portMatchesLocal_vf_iff (idx : Nat) (upCtrl : Option Nat) (p : DevlinkPort) :
    portMatchesLocal .pciVF idx upCtrl p = true ↔
      (p.portFlavour = .pciVF ∧ p.vfNumber = some idx ∧
       (p.controllerNumber = upCtrl ∨ p.controllerNumber = none)) := by
  unfold portMatchesLocal
  simp [Bool.and_eq_true, Bool.or_eq_true, decide_eq_true_eq, and_assoc]

theorem portMatchesLocal_sf_iff (idx : Nat) (upCtrl : Option Nat) (p : DevlinkPort) :
    portMatchesLocal .pciSF idx upCtrl p = true ↔
      (p.portFlavour = .pciSF ∧ p.sfNumber = some idx ∧
       (p.controllerNumber = upCtrl ∨ p.controllerNumber = none)) := by
  unfold portMatchesLocal
  simp [Bool.and_eq_true, Bool.or_eq_true, decide_eq_true_eq, and_assoc]

theorem isUplinkCandidate_iff (n : String) (a : NetdevAttrs) :
    isUplinkCandidate (n, a) = true ↔
      ((∃ s, a.physSwitchID = some s ∧ ¬ s = "") ∧
       (a.physPortName = none ∨
        ∃ pn m, a.physPortName = some pn ∧ parsePortName pn = .physical m)) := by
  unfold isUplinkCandidate
  rcases a with ⟨ppn, psw⟩
  rcases psw with _ | s
  · simp
  · rcases ppn with _ | pn
    · simp
    · simp only [Bool.and_eq_true, Bool.not_eq_true', decide_eq_false_iff_not,
        Option.some.injEq]
      constructor
      · rintro ⟨h1, h2⟩
        refine ⟨⟨s, rfl, h1⟩, ?_⟩
        rcases hd : parsePortName pn with m | ⟨c, q⟩ | ⟨c, q, i⟩ | ⟨c, q, i⟩ | _ <;>
          rw [hd] at h2
        · exact Or.inr ⟨pn, m, rfl, hd⟩
        all_goals simp at h2
      · rintro ⟨⟨t, ht, hne⟩, h2⟩
        subst ht
        refine ⟨hne, ?_⟩
        rcases h2 with h2 | ⟨pn2, m, h2, h3⟩
        · simp at h2
        · subst h2
          simp [h3]

end PredicateLemmas

section Claims

/-- C4: for every string of the form c(K)pf(N)vf(M) with K, N, M digit
runs, the phys_port_name grammar parser yields a VF descriptor with
controller K, pf N, vf M, and for every string of the form pf(N)vf(M) it
yields a VF descriptor with controller none; moreover any string starting
with the character c is never classified as a physical port nor as any
unprefixed (controller-none) descriptor, so the controller-prefixed form
is decided before the unprefixed ones. -/
theorem c4_vf_grammar_controller :
    (∀ ks ns ms : List Char,
      ks ≠ [] → (∀ c ∈ ks, c.isDigit = true) →
      ns ≠ [] → (∀ c ∈ ns, c.isDigit = true) →
      ms ≠ [] → (∀ c ∈ ms, c.isDigit = true) →
      parsePortName (String.mk ('c' :: (ks ++ 'p' :: 'f' :: (ns ++ 'v' :: 'f' :: ms))))
          = .vf (some (digitsVal ks)) (digitsVal ns) (digitsVal ms)
        ∧ parsePortName (String.mk ('p' :: 'f' :: (ns ++ 'v' :: 'f' :: ms)))
          = .vf none (digitsVal ns) (digitsVal ms)) ∧
    (∀ cs : List Char,
      (∀ n, parsePortName (String.mk ('c' :: cs)) ≠ .physical n) ∧
      (∀ n, parsePortName (String.mk ('c' :: cs)) ≠ .pf none n) ∧
      (∀ p v, parsePortName (String.mk ('c' :: cs)) ≠ .vf none p v) ∧
      (∀ p q, parsePortName (String.mk ('c' :: cs)) ≠ .sf none p q)) := by
  constructor
  · intro ks ns ms hk1 hk2 hn1 hn2 hm1 hm2
    constructor
    · show parsePortNameAux ('c' :: (ks ++ 'p' :: 'f' :: (ns ++ 'v' :: 'f' :: ms))) = _
      rw [parsePortNameAux_cpf ks _ hk1 hk2, parsePfTail_vf _ ns ms hn1 hn2 hm1 hm2]
    · show parsePortNameAux ('p' :: 'f' :: (ns ++ 'v' :: 'f' :: ms)) = _
      rw [parsePortNameAux_pf, parsePfTail_vf _ ns ms hn1 hn2 hm1 hm2]
  · intro cs
    have hp : parsePortName (String.mk ('c' :: cs)) = parsePortNameAux ('c' :: cs) := rfl
    refine ⟨fun n => ?_, fun n => ?_, fun p v => ?_, fun p q => ?_⟩ <;> rw [hp] <;>
      rcases parsePortNameAux_c_cases cs with h | ⟨k, n2, h⟩ | ⟨k, n2, m2, h⟩ | ⟨k, n2, m2, h⟩ <;>
        rw [h] <;> simp

/-- Witness for C4 at the concrete inputs c1pf0vf2, pf0vf2 and c1pf0. -/
theorem c4_vf_grammar_controller_witness :
    parsePortName (String.mk ('c' :: (['1'] ++ 'p' :: 'f' :: (['0'] ++ 'v' :: 'f' :: ['2']))))
        = .vf (some (digitsVal ['1'])) (digitsVal ['0']) (digitsVal ['2'])
    ∧ parsePortName (String.mk ('p' :: 'f' :: (['0'] ++ 'v' :: 'f' :: ['2'])))
        = .vf none (digitsVal ['0']) (digitsVal ['2'])
    ∧ parsePortName (String.mk ('c' :: ('1' :: 'p' :: 'f' :: ['0']))) ≠ .pf none 0 :=
  ⟨(c4_vf_grammar_controller.1 ['1'] ['0'] ['2'] (by decide) (by decide) (by decide)
      (by decide) (by decide) (by decide)).1,
   (c4_vf_grammar_controller.1 ['1'] ['0'] ['2'] (by decide) (by decide) (by decide)
      (by decide) (by decide) (by decide)).2,
   (c4_vf_grammar_controller.2 ('1' :: 'p' :: 'f' :: ['0'])).2.1 0⟩

/-- C5: the phys_port_name grammar parser is total and yields the unknown
descriptor on unparseable input: every digit-free string (including the
empty string and the literal invalid), and strings with missing numerics
such as pf, pf0vf and c1pf; flavour classification of a netdev with a
non-empty switch ID and an unparseable phys_port_name returns the unknown
flavour without error. -/
theorem c5_parser_total_unknown :
    (∀ s : String, (∀ c ∈ s.data, c.isDigit = false) → parsePortName s = .unknown) ∧
    parsePortName "" = .unknown ∧
    parsePortName "invalid" = .unknown ∧
    parsePortName "pf" = .unknown ∧
    parsePortName "pf0vf" = .unknown ∧
    parsePortName "c1pf" = .unknown ∧
    (∀ (nl swid pn : String), ¬ swid = "" → parsePortName pn = .unknown →
      GetRepresentorPortFlavour ⟨.error nl, ⟨some pn, some swid⟩⟩ = .ok .unknown) := by
  refine ⟨?_, by decide, by decide, by decide, by decide, by decide, ?_⟩
  · intro s h
    exact parsePortNameAux_noDigit s.data h
  · intro nl swid pn hsw hpn
    unfold GetRepresentorPortFlavour
    simp [hsw, hpn]

/-- Witness for C5 at the concrete input invalid with a non-empty switch
ID. -/
theorem c5_parser_total_unknown_witness :
    parsePortName "invalid" = .unknown ∧
    GetRepresentorPortFlavour ⟨.error "e", ⟨some "invalid", some "c2cfc60003a1420c"⟩⟩
      = .ok .unknown :=
  ⟨c5_parser_total_unknown.1 "invalid" (by decide),
   c5_parser_total_unknown.2.2.2.2.2.2 "e" "c2cfc60003a1420c" "invalid"
     (by decide) (by decide)⟩

/-- C1: in the sysfs fallback of VF and SF resolution, an externally
controlled (controller-prefixed) representor never matches, so whenever a
local (no-controller) representor with the requested index is the unique
fallback match among the siblings, it is the one returned for every
enumeration order of the sibling list; in particular with representors
c1pf0vf2 on eth3 and pf0vf2 on eth5 under the same uplink, resolving VF
index 2 returns eth5 in either enumeration order. -/
theorem c1_local_over_external :
    (∀ (idx : Nat) (swid n pn : String) (a : NetdevAttrs) (k p i : Nat),
        a.physPortName = some pn → parsePortName pn = .vf (some k) p i →
        sysfsRepMatch .pciVF idx swid (n, a) = false) ∧
    (∀ (idx : Nat) (swid n pn : String) (a : NetdevAttrs) (k p i : Nat),
        a.physPortName = some pn → parsePortName pn = .sf (some k) p i →
        sysfsRepMatch .pciSF idx swid (n, a) = false) ∧
    (∀ (uplink nl : String) (up : NetdevAttrs) (swid : String)
        (sibs sibs2 : List (String × NetdevAttrs)) (idx : Nat)
        (nLoc : String) (aLoc : NetdevAttrs),
        up.physSwitchID = some swid → ¬ swid = "" →
        List.Perm sibs sibs2 →
        (nLoc, aLoc) ∈ sibs →
        sysfsRepMatch .pciVF idx swid (nLoc, aLoc) = true →
        (∀ e ∈ sibs, sysfsRepMatch .pciVF idx swid e = true → e = (nLoc, aLoc)) →
        GetVfRepresentor ⟨.error nl, true, up, sibs2⟩ uplink idx = .ok nLoc) ∧
    (∀ (uplink nl : String) (up : NetdevAttrs) (swid : String)
        (sibs sibs2 : List (String × NetdevAttrs)) (idx : Nat)
        (nLoc : String) (aLoc : NetdevAttrs),
        up.physSwitchID = some swid → ¬ swid = "" →
        List.Perm sibs sibs2 →
        (nLoc, aLoc) ∈ sibs →
        sysfsRepMatch .pciSF idx swid (nLoc, aLoc) = true →
        (∀ e ∈ sibs, sysfsRepMatch .pciSF idx swid e = true → e = (nLoc, aLoc)) →
        GetSfRepresentor ⟨.error nl, true, up, sibs2⟩ uplink idx = .ok nLoc) ∧
    (∀ uplink nl : String,
      GetVfRepresentor
        ⟨.error nl, true, ⟨some "p0", some "c2cfc60003a1420c"⟩,
          [("eth3", ⟨some "c1pf0vf2", some "c2cfc60003a1420c"⟩),
           ("eth5", ⟨some "pf0vf2", some "c2cfc60003a1420c"⟩)]⟩ uplink 2 = .ok "eth5"
      ∧ GetVfRepresentor
        ⟨.error nl, true, ⟨some "p0", some "c2cfc60003a1420c"⟩,
          [("eth5", ⟨some "pf0vf2", some "c2cfc60003a1420c"⟩),
           ("eth3", ⟨some "c1pf0vf2", some "c2cfc60003a1420c"⟩)]⟩ uplink 2 = .ok "eth5") := by
  refine ⟨?_, ?_, ?_, ?_, ?_⟩
  · intro idx swid n pn a k p i hpn hparse
    cases hm : sysfsRepMatch .pciVF idx swid (n, a) with
    | false => rfl
    | true =>
      rcases (sysfsRepMatch_vf_iff idx swid n a).mp hm with ⟨-, pn2, p2, hpn2, hparse2⟩
      rw [hpn] at hpn2
      injection hpn2 with hpn2
      subst hpn2
      rw [hparse] at hparse2
      exact absurd hparse2 (by simp)
  · intro idx swid n pn a k p i hpn hparse
    cases hm : sysfsRepMatch .pciSF idx swid (n, a) with
    | false => rfl
    | true =>
      rcases (sysfsRepMatch_sf_iff idx swid n a).mp hm with ⟨-, pn2, p2, hpn2, hparse2⟩
      rw [hpn] at hpn2
      injection hpn2 with hpn2
      subst hpn2
      rw [hparse] at hparse2
      exact absurd hparse2 (by simp)
  · intro uplink nl up swid sibs sibs2 idx nLoc aLoc hup hsw hperm hmem hmatch huniq
    have hred : GetVfRepresentor ⟨.error nl, true, up, sibs2⟩ uplink idx
        = sysfsFallbackRep .pciVF ⟨.error nl, true, up, sibs2⟩ idx := rfl
    rw [hred]
    unfold sysfsFallbackRep
    have hfind : sibs2.find? (sysfsRepMatch .pciVF idx swid) = some (nLoc, aLoc) :=
      find_eq_of_unique _ _ _ (hperm.mem_iff.mp hmem) hmatch
        (fun b hb hpb => huniq b (hperm.mem_iff.mpr hb) hpb)
    simp [hup, hsw, hfind]
  · intro uplink nl up swid sibs sibs2 idx nLoc aLoc hup hsw hperm hmem hmatch huniq
    have hred : GetSfRepresentor ⟨.error nl, true, up, sibs2⟩ uplink idx
        = sysfsFallbackRep .pciSF ⟨.error nl, true, up, sibs2⟩ idx := rfl
    rw [hred]
    unfold sysfsFallbackRep
    have hfind : sibs2.find? (sysfsRepMatch .pciSF idx swid) = some (nLoc, aLoc) :=
      find_eq_of_unique _ _ _ (hperm.mem_iff.mp hmem) hmatch
        (fun b hb hpb => huniq b (hperm.mem_iff.mpr hb) hpb)
    simp [hup, hsw, hfind]
  · intro uplink nl
    exact ⟨rfl, rfl⟩

/-- Witness for C1 at the spec's concrete tie-break scenario, both
enumeration orders. -/
theorem c1_local_over_external_witness :
    GetVfRepresentor
      ⟨.error "nl error", true, ⟨some "p0", some "c2cfc60003a1420c"⟩,
        [("eth3", ⟨some "c1pf0vf2", some "c2cfc60003a1420c"⟩),
         ("eth5", ⟨some "pf0vf2", some "c2cfc60003a1420c"⟩)]⟩ "p0" 2 = .ok "eth5"
    ∧ GetSfRepresentor
      ⟨.error "nl error", true, ⟨some "p0", some "c2cfc60003a1420c"⟩,
        [("eth2", ⟨some "c1pf0sf2", some "c2cfc60003a1420c"⟩),
         ("eth3", ⟨some "pf0sf2", some "c2cfc60003a1420c"⟩)]⟩ "p0" 2 = .ok "eth3" := by
  constructor
  · exact c1_local_over_external.2.2.1 "p0" "nl error" ⟨some "p0", some "c2cfc60003a1420c"⟩
      "c2cfc60003a1420c" _ _ 2 "eth5" ⟨some "pf0vf2", some "c2cfc60003a1420c"⟩
      rfl (by decide) (List.Perm.refl _) (by simp) (by decide) (by decide)
  · exact c1_local_over_external.2.2.2.1 "p0" "nl error" ⟨some "p0", some "c2cfc60003a1420c"⟩
      "c2cfc60003a1420c" _ _ 2 "eth3" ⟨some "pf0sf2", some "c2cfc60003a1420c"⟩
      rfl (by decide) (List.Perm.refl _) (by simp) (by decide) (by decide)

/-- C2: when the netlink accessor returns a valid devlink port list, VF
and SF resolution return the netdev name of the matching devlink port
(matching flavour, matching index, controller equal to the uplink's own
controller or absent) for every content of the sysfs sibling list, which
is not consulted; the mock scenarios of the tests evaluate accordingly
with an empty sysfs tree. -/
theorem c2_netlink_first :
    (∀ (uplink : String) (idx : Nat) (ports : List DevlinkPort) (name : String)
        (up : NetdevAttrs) (sibs : List (String × NetdevAttrs)),
        findLocalPort ports uplink .pciVF idx = some name →
        GetVfRepresentor ⟨.ok ports, true, up, sibs⟩ uplink idx = .ok name) ∧
    (∀ (uplink : String) (idx : Nat) (ports : List DevlinkPort) (name : String)
        (up : NetdevAttrs) (sibs : List (String × NetdevAttrs)),
        findLocalPort ports uplink .pciSF idx = some name →
        GetSfRepresentor ⟨.ok ports, true, up, sibs⟩ uplink idx = .ok name) ∧
    (∀ (ports : List DevlinkPort) (uplink : String) (idx : Nat) (name : String),
        findLocalPort ports uplink .pciVF idx = some name →
        ∃ p, p ∈ ports ∧ p.netdeviceName = name ∧ p.portFlavour = .pciVF ∧
          p.vfNumber = some idx ∧
          (p.controllerNumber = uplinkController ports uplink ∨ p.controllerNumber = none)) ∧
    (∀ (ports : List DevlinkPort) (uplink : String) (idx : Nat) (name : String),
        findLocalPort ports uplink .pciSF idx = some name →
        ∃ p, p ∈ ports ∧ p.netdeviceName = name ∧ p.portFlavour = .pciSF ∧
          p.sfNumber = some idx ∧
          (p.controllerNumber = uplinkController ports uplink ∨ p.controllerNumber = none)) ∧
    GetVfRepresentor
      ⟨.ok [⟨"p0", .physical, some 0, none, none, none, none⟩,
            ⟨"pf0vf0", .pciVF, some 0, none, some 0, none, none⟩,
            ⟨"c1pf0vf1", .pciVF, some 1, none, some 1, none, none⟩,
            ⟨"pf0vf1", .pciVF, some 0, none, some 1, none, none⟩],
        true, ⟨some "p0", some "111111"⟩, []⟩ "p0" 1 = .ok "pf0vf1" ∧
    GetSfRepresentor
      ⟨.ok [⟨"p0", .physical, some 0, none, none, none, none⟩,
            ⟨"c1pf0sf10", .pciSF, some 1, none, none, some 10, none⟩,
            ⟨"pf0vf10", .pciVF, some 0, none, some 10, none, none⟩,
            ⟨"pf0sf10", .pciSF, some 0, none, none, some 10, none⟩],
        true, ⟨some "p0", some "c2cfc60003a1420c"⟩, []⟩ "p0" 10 = .ok "pf0sf10" := by
  refine ⟨?_, ?_, ?_, ?_, rfl, rfl⟩
  · intro uplink idx ports name up sibs h
    have hred : GetVfRepresentor ⟨.ok ports, true, up, sibs⟩ uplink idx
        = (match findLocalPort ports uplink .pciVF idx with
           | some name => .ok name
           | none => sysfsFallbackRep .pciVF ⟨.ok ports, true, up, sibs⟩ idx) := rfl
    rw [hred, h]
  · intro uplink idx ports name up sibs h
    have hred : GetSfRepresentor ⟨.ok ports, true, up, sibs⟩ uplink idx
        = (match findLocalPort ports uplink .pciSF idx with
           | some name => .ok name
           | none => sysfsFallbackRep .pciSF ⟨.ok ports, true, up, sibs⟩ idx) := rfl
    rw [hred, h]
  · intro ports uplink idx name h
    unfold findLocalPort at h
    rcases hf : ports.find? (portMatchesLocal .pciVF idx (uplinkController ports uplink))
        with _ | q
    · rw [hf] at h
      exact absurd h (by simp)
    · rw [hf] at h
      injection h with h
      have hq := (portMatchesLocal_vf_iff idx (uplinkController ports uplink) q).mp
        (List.find?_some hf)
      exact ⟨q, List.mem_of_find?_eq_some hf, h, hq.1, hq.2.1, hq.2.2⟩
  · intro ports uplink idx name h
    unfold findLocalPort at h
    rcases hf : ports.find? (portMatchesLocal .pciSF idx (uplinkController ports uplink))
        with _ | q
    · rw [hf] at h
      exact absurd h (by simp)
    · rw [hf] at h
      injection h with h
      have hq := (portMatchesLocal_sf_iff idx (uplinkController ports uplink) q).mp
        (List.find?_some hf)
      exact ⟨q, List.mem_of_find?_eq_some hf, h, hq.1, hq.2.1, hq.2.2⟩

/-- Witness for C2 at the test's mock devlink port list, with an empty
sysfs tree. -/
theorem c2_netlink_first_witness :
    GetVfRepresentor
      ⟨.ok [⟨"p0", .physical, some 0, none, none, none, none⟩,
            ⟨"pf0vf0", .pciVF, some 0, none, some 0, none, none⟩,
            ⟨"c1pf0vf1", .pciVF, some 1, none, some 1, none, none⟩,
            ⟨"pf0vf1", .pciVF, some 0, none, some 1, none, none⟩],
        true, ⟨none, none⟩, []⟩ "p0" 1 = .ok "pf0vf1" :=
  c2_netlink_first.1 "p0" 1 _ "pf0vf1" ⟨none, none⟩ [] rfl

/-- C3: a netlink query failure is never itself fatal to VF/SF
resolution: the result does not depend on the netlink error at all, when
the sysfs fallback succeeds its value is returned with no error, and when
the fallback fails its error (not the netlink one) is surfaced; in
particular a fallback with a matching sibling succeeds and an empty
sibling list yields the representor-not-found error. -/
theorem c3_netlink_failure_nonfatal :
    (∀ (uplink e1 e2 : String) (up : NetdevAttrs)
        (sibs : List (String × NetdevAttrs)) (idx : Nat),
        GetVfRepresentor ⟨.error e1, true, up, sibs⟩ uplink idx
          = GetVfRepresentor ⟨.error e2, true, up, sibs⟩ uplink idx) ∧
    (∀ (uplink e : String) (up : NetdevAttrs) (sibs : List (String × NetdevAttrs))
        (idx : Nat) (r : String),
        sysfsFallbackRep .pciVF ⟨.error e, true, up, sibs⟩ idx = .ok r →
        GetVfRepresentor ⟨.error e, true, up, sibs⟩ uplink idx = .ok r) ∧
    (∀ (uplink e : String) (up : NetdevAttrs) (sibs : List (String × NetdevAttrs))
        (idx : Nat) (f : SriovErr),
        sysfsFallbackRep .pciVF ⟨.error e, true, up, sibs⟩ idx = .error f →
        GetVfRepresentor ⟨.error e, true, up, sibs⟩ uplink idx = .error f) ∧
    (∀ (uplink e1 e2 : String) (up : NetdevAttrs)
        (sibs : List (String × NetdevAttrs)) (idx : Nat),
        GetSfRepresentor ⟨.error e1, true, up, sibs⟩ uplink idx
          = GetSfRepresentor ⟨.error e2, true, up, sibs⟩ uplink idx) ∧
    (∀ (uplink e : String) (up : NetdevAttrs) (sibs : List (String × NetdevAttrs))
        (idx : Nat) (r : String),
        sysfsFallbackRep .pciSF ⟨.error e, true, up, sibs⟩ idx = .ok r →
        GetSfRepresentor ⟨.error e, true, up, sibs⟩ uplink idx = .ok r) ∧
    (∀ (uplink e : String) (up : NetdevAttrs) (sibs : List (String × NetdevAttrs))
        (idx : Nat) (f : SriovErr),
        sysfsFallbackRep .pciSF ⟨.error e, true, up, sibs⟩ idx = .error f →
        GetSfRepresentor ⟨.error e, true, up, sibs⟩ uplink idx = .error f) ∧
    (∀ e : String,
        GetVfRepresentor
          ⟨.error e, true, ⟨some "p0", some "c2cfc60003a1420c"⟩,
            [("eth1", ⟨some "pf0vf1", some "c2cfc60003a1420c"⟩)]⟩ "p0" 1 = .ok "eth1") ∧
    (∀ e : String,
        GetVfRepresentor ⟨.error e, true, ⟨some "p0", some "c2cfc60003a1420c"⟩, []⟩ "p0" 1
          = .error .representorNotFound) :=
  ⟨fun _ _ _ _ _ _ => rfl,
   fun _ _ _ _ _ _ h => h,
   fun _ _ _ _ _ _ h => h,
   fun _ _ _ _ _ _ => rfl,
   fun _ _ _ _ _ _ h => h,
   fun _ _ _ _ _ _ h => h,
   fun _ => rfl,
   fun _ => rfl⟩

/-- Witness for C3: with a concrete netlink error, the fallback success
and fallback failure cases evaluate as the fallback does. -/
theorem c3_netlink_failure_nonfatal_witness :
    GetVfRepresentor
      ⟨.error "failed to get devlink ports", true, ⟨some "p0", some "c2cfc60003a1420c"⟩,
        [("eth1", ⟨some "pf0vf1", some "c2cfc60003a1420c"⟩)]⟩ "p0" 1 = .ok "eth1"
    ∧ GetVfRepresentor
      ⟨.error "failed to get devlink ports", true, ⟨some "p0", some "c2cfc60003a1420c"⟩, []⟩
        "p0" 1 = .error .representorNotFound :=
  ⟨c3_netlink_failure_nonfatal.2.1 "p0" "failed to get devlink ports"
      ⟨some "p0", some "c2cfc60003a1420c"⟩
      [("eth1", ⟨some "pf0vf1", some "c2cfc60003a1420c"⟩)] 1 "eth1" rfl,
   c3_netlink_failure_nonfatal.2.2.1 "p0" "failed to get devlink ports"
      ⟨some "p0", some "c2cfc60003a1420c"⟩ [] 1 .representorNotFound rfl⟩

/-- C6: index extraction returns the numeric VF or SF index encoded in
the phys_port_name regardless of controller prefix; it fails with the
unsupported-flavour error on physical and PF representors, with the I/O
(missing file) error when the phys_port_name file is absent, and with the
not-a-representor error when the switch ID is empty or absent. -/
theorem c6_port_index :
    (∀ (nl swid pn : String) (c : Option Nat) (p i : Nat), ¬ swid = "" →
        parsePortName pn = .vf c p i →
        GetPortIndexFromRepresentor ⟨.error nl, ⟨some pn, some swid⟩⟩ = .ok i) ∧
    (∀ (nl swid pn : String) (c : Option Nat) (p i : Nat), ¬ swid = "" →
        parsePortName pn = .sf c p i →
        GetPortIndexFromRepresentor ⟨.error nl, ⟨some pn, some swid⟩⟩ = .ok i) ∧
    (∀ (nl swid pn : String) (n : Nat), ¬ swid = "" →
        parsePortName pn = .physical n →
        GetPortIndexFromRepresentor ⟨.error nl, ⟨some pn, some swid⟩⟩
          = .error .unsupportedPortFlavour) ∧
    (∀ (nl swid pn : String) (c : Option Nat) (n : Nat), ¬ swid = "" →
        parsePortName pn = .pf c n →
        GetPortIndexFromRepresentor ⟨.error nl, ⟨some pn, some swid⟩⟩
          = .error .unsupportedPortFlavour) ∧
    (∀ (nl swid : String), ¬ swid = "" →
        GetPortIndexFromRepresentor ⟨.error nl, ⟨none, some swid⟩⟩ = .error .ioError) ∧
    (∀ (nl : String) (pn : Option String),
        GetPortIndexFromRepresentor ⟨.error nl, ⟨pn, some ""⟩⟩
          = .error .notARepresentor) ∧
    (∀ (nl : String) (pn : Option String),
        GetPortIndexFromRepresentor ⟨.error nl, ⟨pn, none⟩⟩
          = .error .notARepresentor) := by
  refine ⟨?_, ?_, ?_, ?_, ?_, ?_, ?_⟩
  · intro nl swid pn c p i hsw hpn
    unfold GetPortIndexFromRepresentor GetRepresentorPortFlavour
    simp [hsw, hpn]
  · intro nl swid pn c p i hsw hpn
    unfold GetPortIndexFromRepresentor GetRepresentorPortFlavour
    simp [hsw, hpn]
  · intro nl swid pn n hsw hpn
    unfold GetPortIndexFromRepresentor GetRepresentorPortFlavour
    simp [hsw, hpn]
  · intro nl swid pn c n hsw hpn
    unfold GetPortIndexFromRepresentor GetRepresentorPortFlavour
    simp [hsw, hpn]
  · intro nl swid hsw
    unfold GetPortIndexFromRepresentor GetRepresentorPortFlavour
    simp [hsw]
  · intro nl pn
    rfl
  · intro nl pn
    rfl

/-- Witness for C6 at the concrete attribute contents of the tests
(pf0sf5, c1pf0sf5, pf0, absent file, empty switch ID). -/
theorem c6_port_index_witness :
    GetPortIndexFromRepresentor ⟨.error "e", ⟨some "pf0sf5", some "c2cfc60003a1420c"⟩⟩
      = .ok 5
    ∧ GetPortIndexFromRepresentor ⟨.error "e", ⟨some "c1pf0sf5", some "c2cfc60003a1420c"⟩⟩
      = .ok 5
    ∧ GetPortIndexFromRepresentor ⟨.error "e", ⟨some "pf0", some "c2cfc60003a1420c"⟩⟩
      = .error .unsupportedPortFlavour
    ∧ GetPortIndexFromRepresentor ⟨.error "e", ⟨none, some "c2cfc60003a1420c"⟩⟩
      = .error .ioError
    ∧ GetPortIndexFromRepresentor ⟨.error "e", ⟨some "p0", some ""⟩⟩
      = .error .notARepresentor :=
  ⟨c6_port_index.2.1 "e" "c2cfc60003a1420c" "pf0sf5" none 0 5 (by decide) (by decide),
   c6_port_index.2.1 "e" "c2cfc60003a1420c" "c1pf0sf5" (some 1) 0 5 (by decide) (by decide),
   c6_port_index.2.2.2.1 "e" "c2cfc60003a1420c" "pf0" none 0 (by decide) (by decide),
   c6_port_index.2.2.2.2.1 "e" "c2cfc60003a1420c" (by decide),
   c6_port_index.2.2.2.2.2.1 "e" (some "p0")⟩

/-- C7 counterexample: the claim states that setting a representor's peer
hardware address succeeds only for PF-flavoured representors and fails
for every VF representor, but on the externally controlled VF representor
with phys_port_name c1pf0vf24 of the package's own test the set operation
succeeds (writing the mac under the pf 0, vf 24 smart-nic path). -/
theorem c7_peer_mac_counterexample :
    SetRepresentorPeerMacAddress
      ⟨.error "no devlink support", ⟨some "c1pf0vf24", some "c2cfc60003a1420c"⟩⟩
      "00:00:00:01:02:03" = .ok (0, 24, "00:00:00:01:02:03") := rfl

/-- C7 amended: reading the peer hardware address succeeds only for
PF-flavoured representors (physical, VF and SF representors fail with the
unsupported-flavour error), while setting it succeeds only for
VF-flavoured representors, external or legacy (physical, PF and SF
representors fail); the PF read works through the smart-nic config file
and the VF write records the parsed pf and vf numbers with the written
string. -/
theorem c7_peer_mac_amended :
    (∀ (env : PeerMacEnv) (f : PortFlavour),
        GetRepresentorPortFlavour env.flav = .ok f → ¬ f = .pciPF →
        GetRepresentorPeerMacAddress env = .error .unsupportedPortFlavour) ∧
    (∀ (env : FlavourEnv) (f : PortFlavour) (mac : String),
        GetRepresentorPortFlavour env = .ok f → ¬ f = .pciVF →
        SetRepresentorPeerMacAddress env mac = .error .unsupportedPortFlavour) ∧
    (∀ (nl swid pn mac : String) (c : Option Nat) (p v : Nat), ¬ swid = "" →
        parsePortName pn = .vf c p v →
        SetRepresentorPeerMacAddress ⟨.error nl, ⟨some pn, some swid⟩⟩ mac
          = .ok (p, v, mac)) ∧
    (∀ (nl swid pn cfg mac : String) (c : Option Nat) (n : Nat), ¬ swid = "" →
        parsePortName pn = .pf c n → parseMacFromConfig cfg = some mac →
        GetRepresentorPeerMacAddress ⟨⟨.error nl, ⟨some pn, some swid⟩⟩, some cfg⟩
          = .ok mac) := by
  refine ⟨?_, ?_, ?_, ?_⟩
  · intro env f hf hne
    unfold GetRepresentorPeerMacAddress
    simp [hf, hne]
  · intro env f mac hf hne
    unfold SetRepresentorPeerMacAddress
    simp [hf, hne]
  · intro nl swid pn mac c p v hsw hpn
    unfold SetRepresentorPeerMacAddress GetRepresentorPortFlavour
    simp [hsw, hpn]
  · intro nl swid pn cfg mac c n hsw hpn hcfg
    unfold GetRepresentorPeerMacAddress GetRepresentorPortFlavour sysfsGetPfMac
    simp [hsw, hpn, hcfg]

/-- Witness for C7 amended at the test's concrete representors: the VF
set succeeds, the PF set fails, the PF read succeeds through the config
file, and the physical read fails. -/
theorem c7_peer_mac_amended_witness :
    SetRepresentorPeerMacAddress
      ⟨.error "e", ⟨some "pf0vf24", some "c2cfc60003a1420c"⟩⟩ "00:00:00:01:02:03"
      = .ok (0, 24, "00:00:00:01:02:03")
    ∧ SetRepresentorPeerMacAddress
      ⟨.error "e", ⟨some "pf0", some "c2cfc60003a1420c"⟩⟩ "00:00:00:01:02:03"
      = .error .unsupportedPortFlavour
    ∧ GetRepresentorPeerMacAddress
      ⟨⟨.error "e", ⟨some "pf0", some "c2cfc60003a1420c"⟩⟩,
        some "\nMAC        : 0c:42:a1:de:cf:7c\nMaxTxRate  : 0\nState      : Follow\n"⟩
      = .ok "0c:42:a1:de:cf:7c"
    ∧ GetRepresentorPeerMacAddress
      ⟨⟨.error "e", ⟨some "p0", some "c2cfc60003a1420c"⟩⟩, none⟩
      = .error .unsupportedPortFlavour :=
  ⟨c7_peer_mac_amended.2.2.1 "e" "c2cfc60003a1420c" "pf0vf24" "00:00:00:01:02:03"
      none 0 24 (by decide) (by decide),
   c7_peer_mac_amended.2.1 ⟨.error "e", ⟨some "pf0", some "c2cfc60003a1420c"⟩⟩
      .pciPF "00:00:00:01:02:03" rfl (by decide),
   c7_peer_mac_amended.2.2.2 "e" "c2cfc60003a1420c" "pf0"
      "\nMAC        : 0c:42:a1:de:cf:7c\nMaxTxRate  : 0\nState      : Follow\n"
      "0c:42:a1:de:cf:7c" none 0 (by decide) (by decide) (by decide),
   c7_peer_mac_amended.1 ⟨⟨.error "e", ⟨some "p0", some "c2cfc60003a1420c"⟩⟩, none⟩
      .physical rfl (by decide)⟩

theorem findNetdevWithCriteria_none (cands : List (String × NetdevAttrs))
    (crit : PortDesc → Bool)
    (h : ∀ e ∈ cands, ∀ pn, e.2.physPortName = some pn →
      crit (parsePortName pn) = false) :
    findNetdevWithCriteria cands crit = none := by
  unfold findNetdevWithCriteria
  have hf : cands.find? (fun e =>
      (match e.2.physSwitchID with
       | some s => !(decide (s = ""))
       | none => false) &&
      (match e.2.physPortName with
       | some pn => crit (parsePortName pn)
       | none => false)) = none := by
    rw [List.find?_eq_none]
    intro e he
    rcases hpn : e.2.physPortName with _ | pn
    · simp [hpn]
    · simp [hpn, h e he pn hpn]
  rw [hf]

/-- C8 counterexample: the claim states the SF DPU variant falls back to
matching legacy unprefixed pf(N)sf(M) names like the PF and VF variants,
but on the candidate set of the package's own test (pf0sf0, pf0sf1,
pf0sf2, all without controller prefix) resolving pf 0 sf 2 does not
return eth2 and fails with the representor-not-found error. -/
theorem c8_dpu_fallback_counterexample :
    GetSfRepresentorDPU
      [("eth0", ⟨some "pf0sf0", some "c2cfc60003a1420c"⟩),
       ("eth1", ⟨some "pf0sf1", some "c2cfc60003a1420c"⟩),
       ("eth2", ⟨some "pf0sf2", some "c2cfc60003a1420c"⟩)]
      "0" "2" = .error .representorNotFound := rfl

/-- C8 amended: when no controller-prefixed representor exists among the
candidates, the PF and VF DPU variants fall back to matching the legacy
unprefixed names pf(N) and pf(N)vf(M) and return the matching
representor; the SF variant does not fall back: it matches only
controller-prefixed names and fails with the representor-not-found error
when none exists. -/
theorem c8_dpu_fallback_amended :
    (∀ (cands : List (String × NetdevAttrs)) (pfID : String) (n : Nat) (name : String),
        parseDecNat pfID = some n →
        (∀ e ∈ cands, ∀ pn, e.2.physPortName = some pn →
          ∀ k m, parsePortName pn ≠ .pf (some k) m) →
        findNetdevWithCriteria cands
          (fun d => match d with | .pf none m => decide (m = n) | _ => false)
          = some name →
        GetPfRepresentorDPU cands pfID = .ok name) ∧
    (∀ (cands : List (String × NetdevAttrs)) (pfID vfID : String) (n m : Nat)
        (name : String),
        parseDecNat pfID = some n → parseDecNat vfID = some m →
        (∀ e ∈ cands, ∀ pn, e.2.physPortName = some pn →
          ∀ k p v, parsePortName pn ≠ .vf (some k) p v) →
        findNetdevWithCriteria cands
          (fun d => match d with
            | .vf none p v => decide (p = n) && decide (v = m)
            | _ => false) = some name →
        GetVfRepresentorDPU cands pfID vfID = .ok name) ∧
    (∀ (cands : List (String × NetdevAttrs)) (pfID sfID : String) (n m : Nat),
        parseDecNat pfID = some n → parseDecNat sfID = some m →
        (∀ e ∈ cands, ∀ pn, e.2.physPortName = some pn →
          ∀ k p q, parsePortName pn ≠ .sf (some k) p q) →
        GetSfRepresentorDPU cands pfID sfID = .error .representorNotFound) := by
  refine ⟨?_, ?_, ?_⟩
  · intro cands pfID n name hn hnone hleg
    have h1 : findNetdevWithCriteria cands
        (fun d => match d with | .pf (some _) m => decide (m = n) | _ => false)
        = none := by
      apply findNetdevWithCriteria_none
      intro e he pn hpn
      rcases hd : parsePortName pn with m | ⟨c, m⟩ | ⟨c, p, v⟩ | ⟨c, p, q⟩ | _
      · rfl
      · cases c with
        | none => rfl
        | some k => exact absurd hd (hnone e he pn hpn k m)
      · rfl
      · rfl
      · rfl
    unfold GetPfRepresentorDPU
    simp [hn, h1, hleg]
  · intro cands pfID vfID n m name hn hm hnone hleg
    have h1 : findNetdevWithCriteria cands
        (fun d => match d with
          | .vf (some _) p v => decide (p = n) && decide (v = m)
          | _ => false) = none := by
      apply findNetdevWithCriteria_none
      intro e he pn hpn
      rcases hd : parsePortName pn with q | ⟨c, q⟩ | ⟨c, p, v⟩ | ⟨c, p, q⟩ | _
      · rfl
      · cases c <;> rfl
      · cases c with
        | none => rfl
        | some k => exact absurd hd (hnone e he pn hpn k p v)
      · cases c <;> rfl
      · rfl
    unfold GetVfRepresentorDPU
    simp [hn, hm, h1, hleg]
  · intro cands pfID sfID n m hn hm hnone
    have h1 : findNetdevWithCriteria cands
        (fun d => match d with
          | .sf (some _) p q => decide (p = n) && decide (q = m)
          | _ => false) = none := by
      apply findNetdevWithCriteria_none
      intro e he pn hpn
      rcases hd : parsePortName pn with q | ⟨c, q⟩ | ⟨c, p, v⟩ | ⟨c, p, q⟩ | _
      · rfl
      · cases c <;> rfl
      · cases c <;> rfl
      · cases c with
        | none => rfl
        | some k => exact absurd hd (hnone e he pn hpn k p q)
      · rfl
    unfold GetSfRepresentorDPU
    simp [hn, hm, h1]

/-- Witness for C8 amended: legacy-only PF candidates resolve through the
fallback, and legacy-only SF candidates fail. -/
theorem c8_dpu_fallback_amended_witness :
    GetPfRepresentorDPU [("eth1", ⟨some "pf1", some "c2cfc60003a1420c"⟩)] "1"
      = .ok "eth1"
    ∧ GetSfRepresentorDPU [("eth0", ⟨some "pf0sf2", some "c2cfc60003a1420c"⟩)] "0" "2"
      = .error .representorNotFound := by
  constructor
  · apply c8_dpu_fallback_amended.1 _ "1" 1 "eth1" (by decide)
    · intro e he pn hpn k m h
      simp only [List.mem_singleton] at he
      subst he
      injection hpn with hpn
      subst hpn
      rw [show parsePortName "pf1" = PortDesc.pf none 1 from by decide] at h
      injection h with h1 h2
      exact Option.noConfusion h1
    · rfl
  · apply c8_dpu_fallback_amended.2.2 _ "0" "2" 0 2 (by decide) (by decide)
    intro e he pn hpn k p q h
    simp only [List.mem_singleton] at he
    subst he
    injection hpn with hpn
    subst hpn
    rw [show parsePortName "pf0sf2" = PortDesc.sf none 0 2 from by decide] at h
    injection h with h1 h2 h3
    exact Option.noConfusion h1

/-- C9: a netdev with an empty or absent switch ID is never returned as a
representor: every netdev returned by uplink resolution carries a
non-empty switch ID and when no candidate has one the call fails with the
uplink-not-found error; flavour classification through sysfs errors with
the not-a-representor error on an absent or empty switch ID regardless of
phys_port_name; and every netdev returned by the VF/SF sysfs fallback
carries the uplink's non-empty switch ID. -/
theorem c9_switch_id_gating :
    (∀ (env : UplinkEnv) (n : String), GetUplinkRepresentor env = .ok n →
        ∃ a, (n, a) ∈ env.candidates ∧ ∃ s, a.physSwitchID = some s ∧ ¬ s = "") ∧
    (∀ env : UplinkEnv, env.devExists = true →
        (∀ e ∈ env.candidates,
          e.2.physSwitchID = none ∨ e.2.physSwitchID = some "") →
        GetUplinkRepresentor env = .error .uplinkNotFound) ∧
    (∀ (nl : String) (pn : Option String),
        GetRepresentorPortFlavour ⟨.error nl, ⟨pn, none⟩⟩
          = .error .notARepresentor) ∧
    (∀ (nl : String) (pn : Option String),
        GetRepresentorPortFlavour ⟨.error nl, ⟨pn, some ""⟩⟩
          = .error .notARepresentor) ∧
    (∀ (uplink nl : String) (up : NetdevAttrs) (sibs : List (String × NetdevAttrs))
        (idx : Nat) (n : String),
        GetVfRepresentor ⟨.error nl, true, up, sibs⟩ uplink idx = .ok n →
        ∃ a s, (n, a) ∈ sibs ∧ a.physSwitchID = some s ∧ ¬ s = "" ∧
          up.physSwitchID = some s) ∧
    (∀ (uplink nl : String) (up : NetdevAttrs) (sibs : List (String × NetdevAttrs))
        (idx : Nat) (n : String),
        GetSfRepresentor ⟨.error nl, true, up, sibs⟩ uplink idx = .ok n →
        ∃ a s, (n, a) ∈ sibs ∧ a.physSwitchID = some s ∧ ¬ s = "" ∧
          up.physSwitchID = some s) := by
  have hfall : ∀ (flav : PortFlavour) (uplink nl : String) (up : NetdevAttrs)
      (sibs : List (String × NetdevAttrs)) (idx : Nat) (n : String),
      getVfSfRep flav ⟨.error nl, true, up, sibs⟩ uplink idx = .ok n →
      ∃ a s, (n, a) ∈ sibs ∧ a.physSwitchID = some s ∧ ¬ s = "" ∧
        up.physSwitchID = some s := by
    intro flav uplink nl up sibs idx n h
    have hred : getVfSfRep flav ⟨.error nl, true, up, sibs⟩ uplink idx
        = sysfsFallbackRep flav ⟨.error nl, true, up, sibs⟩ idx := rfl
    rw [hred] at h
    unfold sysfsFallbackRep at h
    rcases hup : up.physSwitchID with _ | swid
    · simp only [hup] at h
      exact absurd h (by simp)
    · simp only [hup] at h
      by_cases hsw : swid = ""
      · rw [if_pos hsw] at h
        exact absurd h (by simp)
      · rw [if_neg hsw] at h
        rcases hf : sibs.find? (sysfsRepMatch flav idx swid) with _ | e
        · simp only [hf] at h
          exact absurd h (by simp)
        · rcases e with ⟨nm, a⟩
          simp only [hf] at h
          injection h with h
          have hn : nm = n := h
          subst hn
          exact ⟨a, swid, List.mem_of_find?_eq_some hf,
            sysfsRepMatch_swid _ _ _ _ (List.find?_some hf), hsw, rfl⟩
  refine ⟨?_, ?_, ?_, ?_, hfall .pciVF, hfall .pciSF⟩
  · intro env n h
    rcases env with ⟨de, cands⟩
    cases de
    · exact absurd h (by simp [GetUplinkRepresentor])
    · have hred : GetUplinkRepresentor ⟨true, cands⟩
          = (match cands.find? isUplinkCandidate with
             | some e => Except.ok e.1
             | none => Except.error SriovErr.uplinkNotFound) := rfl
      rw [hred] at h
      rcases hf : cands.find? isUplinkCandidate with _ | e
      · rw [hf] at h
        exact absurd h (by simp)
      · rcases e with ⟨nm, a⟩
        rw [hf] at h
        injection h with h
        subst h
        obtain ⟨⟨s, hs, hne⟩, -⟩ := (isUplinkCandidate_iff nm a).mp (List.find?_some hf)
        exact ⟨a, List.mem_of_find?_eq_some hf, s, hs, hne⟩
  · intro env hde hall
    rcases env with ⟨de, cands⟩
    cases hde
    have hf : cands.find? isUplinkCandidate = none := by
      rw [List.find?_eq_none]
      intro e he
      rcases e with ⟨nm, a⟩
      rcases hall (nm, a) he with h | h
      · have h2 : a.physSwitchID = none := h
        simp [isUplinkCandidate, h2]
      · have h2 : a.physSwitchID = some "" := h
        simp [isUplinkCandidate, h2]
    have hred : GetUplinkRepresentor ⟨true, cands⟩
        = (match cands.find? isUplinkCandidate with
           | some e => Except.ok e.1
           | none => Except.error SriovErr.uplinkNotFound) := rfl
    rw [hred, hf]
  · intro nl pn
    rfl
  · intro nl pn
    rfl

/-- Witness for C9 at the concrete scenarios of the tests: an uplink with
switch ID 111111 is returned with that ID, a candidate with
phys_port_name pf0vf3 and an empty switch ID makes uplink resolution fail
and flavour classification error, and a fallback-resolved VF representor
carries the uplink's switch ID. -/
theorem c9_switch_id_gating_witness :
    (∃ a, ("eth0", a) ∈ [("eth0", (⟨some "p0", some "111111"⟩ : NetdevAttrs))]
      ∧ ∃ s, a.physSwitchID = some s ∧ ¬ s = "")
    ∧ GetUplinkRepresentor ⟨true, [("eth0", ⟨some "pf0vf3", some ""⟩)]⟩
        = .error .uplinkNotFound
    ∧ GetRepresentorPortFlavour ⟨.error "e", ⟨some "pf0vf3", some ""⟩⟩
        = .error .notARepresentor
    ∧ (∃ a s, ("eth1", a) ∈ [("eth1", (⟨some "pf0vf1", some "c2cfc60003a1420c"⟩ : NetdevAttrs))]
        ∧ a.physSwitchID = some s ∧ ¬ s = ""
        ∧ (⟨some "p0", some "c2cfc60003a1420c"⟩ : NetdevAttrs).physSwitchID = some s) :=
  ⟨c9_switch_id_gating.1 ⟨true, [("eth0", ⟨some "p0", some "111111"⟩)]⟩ "eth0" rfl,
   c9_switch_id_gating.2.1 ⟨true, [("eth0", ⟨some "pf0vf3", some ""⟩)]⟩ rfl (by decide),
   c9_switch_id_gating.2.2.2.1 "e" (some "pf0vf3"),
   c9_switch_id_gating.2.2.2.2.1 "p0" "e" ⟨some "p0", some "c2cfc60003a1420c"⟩
     [("eth1", ⟨some "pf0vf1", some "c2cfc60003a1420c"⟩)] 1 "eth1" rfl⟩

/-- C10: uplink resolution accepts a candidate only when its switch ID is
non-empty and its phys_port_name is absent or parses as a physical port;
when every candidate has a phys_port_name that does not parse as a
physical port the call fails with the uplink-not-found error, in
particular with the literal invalid; and a candidate with an absent
phys_port_name and a non-empty switch ID is accepted. -/
theorem c10_uplink_phys_port_name :
    (∀ (env : UplinkEnv) (n : String), GetUplinkRepresentor env = .ok n →
        ∃ a, (n, a) ∈ env.candidates ∧ (∃ s, a.physSwitchID = some s ∧ ¬ s = "") ∧
          (a.physPortName = none ∨
           ∃ pn m, a.physPortName = some pn ∧ parsePortName pn = .physical m)) ∧
    (∀ cands : List (String × NetdevAttrs),
        (∀ e ∈ cands, ∃ pn, e.2.physPortName = some pn ∧
          ∀ m, parsePortName pn ≠ .physical m) →
        GetUplinkRepresentor ⟨true, cands⟩ = .error .uplinkNotFound) ∧
    GetUplinkRepresentor
      ⟨true, [("eth0", ⟨some "invalid", some "111111"⟩),
              ("enp_0", ⟨some "pf0vf0", some "0123"⟩),
              ("enp_1", ⟨some "pf0vf1", some "0124"⟩)]⟩
      = .error .uplinkNotFound ∧
    GetUplinkRepresentor ⟨true, [("eth0", ⟨none, some "111111"⟩)]⟩ = .ok "eth0" := by
  refine ⟨?_, ?_, rfl, rfl⟩
  · intro env n h
    rcases env with ⟨de, cands⟩
    cases de
    · exact absurd h (by simp [GetUplinkRepresentor])
    · have hred : GetUplinkRepresentor ⟨true, cands⟩
          = (match cands.find? isUplinkCandidate with
             | some e => Except.ok e.1
             | none => Except.error SriovErr.uplinkNotFound) := rfl
      rw [hred] at h
      rcases hf : cands.find? isUplinkCandidate with _ | e
      · rw [hf] at h
        exact absurd h (by simp)
      · rcases e with ⟨nm, a⟩
        rw [hf] at h
        injection h with h
        subst h
        obtain ⟨h1, h2⟩ := (isUplinkCandidate_iff nm a).mp (List.find?_some hf)
        exact ⟨a, List.mem_of_find?_eq_some hf, h1, h2⟩
  · intro cands hall
    have hf : cands.find? isUplinkCandidate = none := by
      rw [List.find?_eq_none]
      intro e he
      rcases e with ⟨nm, a⟩
      obtain ⟨pn, hpn, hnp⟩ := hall (nm, a) he
      have hpn2 : a.physPortName = some pn := hpn
      rcases hd : parsePortName pn with m | _ | _ | _ | _
      · exact absurd hd (hnp m)
      all_goals simp [isUplinkCandidate, hpn2, hd]
    have hred : GetUplinkRepresentor ⟨true, cands⟩
        = (match cands.find? isUplinkCandidate with
           | some e => Except.ok e.1
           | none => Except.error SriovErr.uplinkNotFound) := rfl
    rw [hred, hf]

/-- Witness for C10: the accepted legacy candidate (absent phys_port_name,
non-empty switch ID) and the rejected unparseable candidate. -/
theorem c10_uplink_phys_port_name_witness :
    (∃ a, ("eth0", a) ∈ [("eth0", (⟨none, some "111111"⟩ : NetdevAttrs))]
      ∧ (∃ s, a.physSwitchID = some s ∧ ¬ s = "")
      ∧ (a.physPortName = none ∨
         ∃ pn m, a.physPortName = some pn ∧ parsePortName pn = .physical m))
    ∧ GetUplinkRepresentor ⟨true, [("eth0", ⟨some "invalid", some "111111"⟩)]⟩
        = .error .uplinkNotFound :=
  ⟨c10_uplink_phys_port_name.1 ⟨true, [("eth0", ⟨none, some "111111"⟩)]⟩ "eth0" rfl,
   c10_uplink_phys_port_name.2.1 [("eth0", ⟨some "invalid", some "111111"⟩)]
     (by
       intro e he
       simp only [List.mem_singleton] at he
       subst he
       refine ⟨"invalid", rfl, fun m h => ?_⟩
       rw [show parsePortName "invalid" = PortDesc.unknown from by decide] at h
       exact PortDesc.noConfusion h)⟩

end Claims

end Sriovnet
